import Mathlib

/-!
# imgo: the connection-lifecycle manager and message dispatcher

A shallow embedding of `im/server/server.go`: the three event handlers of the
dispatcher loop (`joinHandler`, `quitHandler`, `receivedHandler`) as functions
on an explicit server state.

* A `*common.Client` is an index into `Server.heap`; the `ClientTable` maps a
  key to such an index.
* Every `model.*` call goes through a `Gateway` record over an arbitrary store
  type `D`; each call is also appended to `Server.calls`.
* Every `PutOut` is appended to `Server.out` together with the receiving client.
* A Go panic (nil dereference) is the result `none`.
-/

namespace Imgo

/-! ## Data model -/

/-- Modelled from the spec: the `model.Login` record (its declaration is outside
`server.go`): internal login-record id, token and user id. The zero value has
all fields empty. -/
structure Login where
  Id : String
  Token : String
  UserId : String
deriving DecidableEq, Repr

/-- Modelled from the spec: the `model.User` record, of which `server.go` reads
`Id` and `Status`. -/
structure User where
  Id : String
  Status : String
deriving DecidableEq, Repr

/-- Modelled from the spec: the persisted connection record linking
session key, user id and token. -/
structure Conn where
  Key : String
  UserId : String
  Token : String
deriving DecidableEq, Repr

/-- Modelled from the spec: the persisted conversation (id, sender, receiver). -/
structure Conversation where
  Id : String
  Sender : String
  Receiver : String
deriving DecidableEq, Repr

/-- Modelled from the spec: a buddy category with its resolved buddies. -/
structure Category where
  Id : String
  Name : String
  Buddies : List User
deriving DecidableEq, Repr

/-- A value stored in a `map[string]interface{}` / `map[string]string` payload. -/
inductive Value where
  | str (s : String)
  | int (n : Int)
deriving DecidableEq, Repr

/-- The result of `util.SetData(name, data)`: one named group holding either a
field map or the category list. -/
inductive Payload where
  | object (name : String) (fields : List (String × Value))
  | categories (name : String) (cs : List Category)
deriving DecidableEq, Repr

/-- A response, built by one of the two constructors used in `server.go`:
`common.NewIMResponseSimple(code, message, command)` and
`common.NewIMResponseData(data, command)`. -/
inductive IMResponse where
  | NewIMResponseSimple (code : Int) (message : String) (command : String)
  | NewIMResponseData (data : Payload) (command : String)
deriving DecidableEq, Repr

open IMResponse

/-- The response-command identifier of a response. -/
def IMResponse.command : IMResponse → String
  | NewIMResponseSimple _ _ c => c
  | NewIMResponseData _ c => c

/-- The numeric code of an error response (`NewIMResponseSimple`), if it is one. -/
def IMResponse.code? : IMResponse → Option Int
  | NewIMResponseSimple c _ _ => some c
  | NewIMResponseData _ _ => none

/-- The function `util.SetData` for a field map. -/
def SetData (name : String) (fields : List (String × Value)) : Payload :=
  Payload.object name fields

/-- Modelled from the spec: a `common.Client` (session): its key, its mutable
`Login` sub-record and whether `Close()` has been called on it. -/
structure Client where
  Key : String
  Login : Login
  closed : Bool
deriving DecidableEq, Repr

/-- A `common.IMRequest`: the originating client (a pointer, here a heap index),
the command and the nested field map `map[string]map[string]string`. -/
structure IMRequest where
  Client : Nat
  Command : String
  Data : List (String × List (String × String))
deriving DecidableEq, Repr

/-- Reading `reqData[group][name]`: a missing group or a missing field reads as
the empty string, as a Go map read does. -/
def field (reqData : List (String × List (String × String))) (group name : String) : String :=
  (((reqData.lookup group).getD []).lookup name).getD ""

/-! ## Command identifiers (constants of package `common`) -/

/-- Modelled from the spec: request command `GET_CONN`. -/
def GET_CONN : String := "GET_CONN"
/-- Modelled from the spec: request command `GET_BUDDY_LIST`. -/
def GET_BUDDY_LIST : String := "GET_BUDDY_LIST"
/-- Modelled from the spec: request command `CREATE_SESSION`. -/
def CREATE_SESSION : String := "CREATE_SESSION"
/-- Modelled from the spec: request command `SEND_MSG`. -/
def SEND_MSG : String := "SEND_MSG"
/-- Modelled from the spec: request command `SEND_STATUS_CHANGE`. -/
def SEND_STATUS_CHANGE : String := "SEND_STATUS_CHANGE"
/-- Modelled from the spec: request command `LOGOUT_REQUEST`. -/
def LOGOUT_REQUEST : String := "LOGOUT_REQUEST"
/-- Modelled from the spec: response command `GET_KEY_RETURN`. -/
def GET_KEY_RETURN : String := "GET_KEY_RETURN"
/-- Modelled from the spec: response command `GET_CONN_RETURN`. -/
def GET_CONN_RETURN : String := "GET_CONN_RETURN"
/-- Modelled from the spec: response command `GET_BUDDY_LIST_RETURN`. -/
def GET_BUDDY_LIST_RETURN : String := "GET_BUDDY_LIST_RETURN"
/-- Modelled from the spec: response command `CREATE_SESSION_RETURN`. -/
def CREATE_SESSION_RETURN : String := "CREATE_SESSION_RETURN"
/-- Modelled from the spec: response command `SEND_MSG_RETURN`. -/
def SEND_MSG_RETURN : String := "SEND_MSG_RETURN"
/-- Modelled from the spec: push command `PUSH_MSG`. -/
def PUSH_MSG : String := "PUSH_MSG"
/-- Modelled from the spec: push command `PUSH_STATUS_CHANGE`. -/
def PUSH_STATUS_CHANGE : String := "PUSH_STATUS_CHANGE"
/-- Modelled from the spec: response command `UNAUTHORIZED`. -/
def UNAUTHORIZED : String := "UNAUTHORIZED"

/-! ## `strings.EqualFold` -/

/-- One rune pair of `strings.EqualFold`: equal runes match; two ASCII runes
match when they are the upper and lower case of one letter; otherwise the pair
is looked up in the simple-folding orbits of package `unicode`, given as the
relation `orbit` on (smaller, larger) rune. -/
def foldPair (orbit : Char → Char → Bool) (a b : Char) : Bool :=
  if a = b then true
  else
    let sr := if b.toNat < a.toNat then b else a
    let tr := if b.toNat < a.toNat then a else b
    if tr.toNat < 128 then
      decide (65 ≤ sr.toNat ∧ sr.toNat ≤ 90 ∧ tr.toNat = sr.toNat + 32)
    else orbit sr tr

/-- The rune-by-rune comparison of `strings.EqualFold`. -/
def equalFoldRunes (orbit : Char → Char → Bool) : List Char → List Char → Bool
  | [], [] => true
  | a :: s, b :: t => foldPair orbit a b && equalFoldRunes orbit s t
  | _, _ => false

/-- The function `strings.EqualFold(s, t)`: equality under Unicode simple case
folding. -/
def EqualFold (orbit : Char → Char → Bool) (s t : String) : Bool :=
  equalFoldRunes orbit s.toList t.toList

/-! ## The PersistenceGateway (package `model`) -/

/-- The functions of package `model` called by `server.go`, over a store `D`.
Lookups read the store; updates return their result and the new store. -/
structure Gateway (D : Type) where
  GetLoginByToken : D → String → Login
  UpdateUserStatus : D → String → String → Bool × D
  GetConnByToken : D → String → Conn
  UpdateConnByToken : D → String → String → String → Int × D
  AddConn : D → String → String → String → Int × D
  GetCategoriesByToken : D → String → List Category
  GetBuddiesByCategories : D → List Category → List Category
  GetConversation : D → String → String → Conversation
  AddConversation : D → String → String → String × D
  GetConversationById : D → String → Conversation
  GetReceiverKeyByTicket : D → String → List String
  GetUserByToken : D → String → User
  GetBuddiesKeyById : D → String → List String
  DeleteConnByKey : D → String → D
  CountConnByKey : D → String → Int

/-- What lies outside the repository: the PersistenceGateway and the
simple-folding orbits used by `strings.EqualFold`. -/
structure Env (D : Type) where
  model : Gateway D
  orbit : Char → Char → Bool

/-- One call of a `model` function, with its arguments. -/
inductive Call where
  | GetLoginByToken (token : String)
  | UpdateUserStatus (userId status : String)
  | GetConnByToken (token : String)
  | UpdateConnByToken (key userId token : String)
  | AddConn (key userId token : String)
  | GetCategoriesByToken (token : String)
  | GetBuddiesByCategories (cs : List Category)
  | GetConversation (sender receiver : String)
  | AddConversation (sender receiver : String)
  | GetConversationById (ticket : String)
  | GetReceiverKeyByTicket (ticket : String)
  | GetUserByToken (token : String)
  | GetBuddiesKeyById (userId : String)
  | DeleteConnByKey (key : String)
  | CountConnByKey (key : String)
deriving DecidableEq, Repr

/-- A call that writes presence or a connection record. -/
def Call.isPresenceOrConnWrite : Call → Bool
  | Call.UpdateUserStatus _ _ => true
  | Call.UpdateConnByToken _ _ _ => true
  | Call.AddConn _ _ _ => true
  | _ => false

/-! ## Server state -/

/-- The server: the allocated clients, the `ClientTable` (`this.clients`), the
persisted store, and the three traces: responses written by `PutOut`
(receiver, response), `model` calls made, and termination signals raised by
`Quiting()`. -/
structure Server (D : Type) where
  heap : List Client
  clients : List (String × Nat)
  db : D
  out : List (Nat × IMResponse)
  calls : List Call
  quits : List Nat
deriving DecidableEq

variable {D : Type}

/-- Modelled from the spec: `client.PutOut(response)` writes the response to the
client's outbound path. -/
def Server.PutOut (s : Server D) (p : Nat) (r : IMResponse) : Server D :=
  { s with out := s.out ++ [(p, r)] }

/-- Record a `model` call. -/
def Server.called (s : Server D) (c : Call) : Server D :=
  { s with calls := s.calls ++ [c] }

/-- The assignment `client.Login = login` through the pointer `p`. -/
def Server.setLogin (s : Server D) (p : Nat) (login : Login) : Server D :=
  { s with heap := match s.heap[p]? with
                   | some c => s.heap.set p { c with Login := login }
                   | none => s.heap }

/-- Modelled from the spec: `client.Close()` closes the connection and channels. -/
def Server.Close (s : Server D) (p : Nat) : Server D :=
  { s with heap := match s.heap[p]? with
                   | some c => s.heap.set p { c with closed := true }
                   | none => s.heap }

/-- Modelled from the spec: `client.Quiting()` raises the client's termination
signal, which later surfaces as a quit event. -/
def Server.Quiting (s : Server D) (p : Nat) : Server D :=
  { s with quits := s.quits ++ [p] }

/-- The map read `this.clients[key]`; `none` is the nil pointer. -/
def Server.client (s : Server D) (key : String) : Option Nat :=
  s.clients.lookup key

/-- The map write `this.clients[key] = client`. -/
def Server.insertClient (s : Server D) (key : String) (p : Nat) : Server D :=
  { s with clients := (key, p) :: s.clients.filter (fun kv => kv.1 ≠ key) }

/-- The map delete `delete(this.clients, key)`. -/
def Server.deleteClient (s : Server D) (key : String) : Server D :=
  { s with clients := s.clients.filter (fun kv => kv.1 ≠ key) }

/-! ## Calls into package `model`, each recorded in `calls` -/

/-- The call `model.GetLoginByToken(token)`. -/
def Server.GetLoginByToken (e : Env D) (s : Server D) (token : String) : Login × Server D :=
  (e.model.GetLoginByToken s.db token, s.called (Call.GetLoginByToken token))

/-- The call `model.UpdateUserStatus(userId, status)`. -/
def Server.UpdateUserStatus (e : Env D) (s : Server D) (userId status : String) :
    Bool × Server D :=
  ((e.model.UpdateUserStatus s.db userId status).1,
   { s.called (Call.UpdateUserStatus userId status) with
     db := (e.model.UpdateUserStatus s.db userId status).2 })

/-- The call `model.GetConnByToken(token)`. -/
def Server.GetConnByToken (e : Env D) (s : Server D) (token : String) : Conn × Server D :=
  (e.model.GetConnByToken s.db token, s.called (Call.GetConnByToken token))

/-- The call `model.UpdateConnByToken(key, userId, token)`. -/
def Server.UpdateConnByToken (e : Env D) (s : Server D) (key userId token : String) :
    Int × Server D :=
  ((e.model.UpdateConnByToken s.db key userId token).1,
   { s.called (Call.UpdateConnByToken key userId token) with
     db := (e.model.UpdateConnByToken s.db key userId token).2 })

/-- The call `model.AddConn(key, userId, token)`. -/
def Server.AddConn (e : Env D) (s : Server D) (key userId token : String) : Int × Server D :=
  ((e.model.AddConn s.db key userId token).1,
   { s.called (Call.AddConn key userId token) with
     db := (e.model.AddConn s.db key userId token).2 })

/-- The call `model.GetCategoriesByToken(token)`. -/
def Server.GetCategoriesByToken (e : Env D) (s : Server D) (token : String) :
    List Category × Server D :=
  (e.model.GetCategoriesByToken s.db token, s.called (Call.GetCategoriesByToken token))

/-- The call `model.GetBuddiesByCategories(categories)`. -/
def Server.GetBuddiesByCategories (e : Env D) (s : Server D) (cs : List Category) :
    List Category × Server D :=
  (e.model.GetBuddiesByCategories s.db cs, s.called (Call.GetBuddiesByCategories cs))

/-- The call `model.GetConversation(sender, receiver)`. -/
def Server.GetConversation (e : Env D) (s : Server D) (sender receiver : String) :
    Conversation × Server D :=
  (e.model.GetConversation s.db sender receiver, s.called (Call.GetConversation sender receiver))

/-- The call `model.AddConversation(sender, receiver)`. -/
def Server.AddConversation (e : Env D) (s : Server D) (sender receiver : String) :
    String × Server D :=
  ((e.model.AddConversation s.db sender receiver).1,
   { s.called (Call.AddConversation sender receiver) with
     db := (e.model.AddConversation s.db sender receiver).2 })

/-- The call `model.GetConversationById(ticket)`. -/
def Server.GetConversationById (e : Env D) (s : Server D) (ticket : String) :
    Conversation × Server D :=
  (e.model.GetConversationById s.db ticket, s.called (Call.GetConversationById ticket))

/-- The call `model.GetReceiverKeyByTicket(ticket)`. -/
def Server.GetReceiverKeyByTicket (e : Env D) (s : Server D) (ticket : String) :
    List String × Server D :=
  (e.model.GetReceiverKeyByTicket s.db ticket, s.called (Call.GetReceiverKeyByTicket ticket))

/-- The call `model.GetUserByToken(token)`. -/
def Server.GetUserByToken (e : Env D) (s : Server D) (token : String) : User × Server D :=
  (e.model.GetUserByToken s.db token, s.called (Call.GetUserByToken token))

/-- The call `model.GetBuddiesKeyById(userId)`. -/
def Server.GetBuddiesKeyById (e : Env D) (s : Server D) (userId : String) :
    List String × Server D :=
  (e.model.GetBuddiesKeyById s.db userId, s.called (Call.GetBuddiesKeyById userId))

/-- The call `model.DeleteConnByKey(key)`; its result is discarded by the caller. -/
def Server.DeleteConnByKey (e : Env D) (s : Server D) (key : String) : Server D :=
  { s.called (Call.DeleteConnByKey key) with db := e.model.DeleteConnByKey s.db key }

/-- The call `model.CountConnByKey(key)`. -/
def Server.CountConnByKey (e : Env D) (s : Server D) (key : String) : Int × Server D :=
  (e.model.CountConnByKey s.db key, s.called (Call.CountConnByKey key))

/-! ## `Server.receivedHandler` -/

/-- The arm `case common.GET_CONN` of the first switch (lines 141-177). -/
def getConn (e : Env D) (s : Server D) (p : Nat) (client : Client)
    (reqData : List (String × List (String × String))) : Server D :=
  let token := field reqData "user" "token"
  if token = "" then
    s.PutOut p (NewIMResponseSimple 301 "用户令牌不能为空!" GET_CONN_RETURN)
  else
    let r := s.GetLoginByToken e token
    let login := r.1
    let s := r.2.setLogin p login
    if !EqualFold e.orbit login.Token token then
      s.PutOut p (NewIMResponseSimple 302 "该用户令牌无效!" GET_CONN_RETURN)
    else if login.Id ≠ "" then
      let u := s.UpdateUserStatus e login.UserId "1"
      let s := u.2
      if u.1 then
        let c := s.GetConnByToken e token
        let s := c.2
        let w := if c.1.UserId ≠ "" then s.UpdateConnByToken e client.Key login.UserId token
                 else s.AddConn e client.Key login.UserId token
        w.2.PutOut p
          (NewIMResponseData (SetData "conn" [("status", Value.int w.1)]) GET_CONN_RETURN)
      else
        s.PutOut p (NewIMResponseSimple 304 "设置用户状态失败!" GET_CONN_RETURN)
    else
      s.PutOut p (NewIMResponseSimple 303 "用户未登录!" GET_CONN_RETURN)

/-- The arm `case common.GET_BUDDY_LIST` (lines 185-196). -/
def getBuddyList (e : Env D) (s : Server D) (p : Nat)
    (reqData : List (String × List (String × String))) : Server D :=
  let token := field reqData "user" "token"
  if token = "" then
    s.PutOut p (NewIMResponseSimple 301 "用户令牌不能为空!" GET_CONN_RETURN)
  else
    let c := s.GetCategoriesByToken e token
    let b := c.2.GetBuddiesByCategories e c.1
    b.2.PutOut p (NewIMResponseData (Payload.categories "categories" b.1) GET_BUDDY_LIST_RETURN)

/-- The arm `case common.CREATE_SESSION` (lines 198-228). -/
def createSession (e : Env D) (s : Server D) (p : Nat)
    (reqData : List (String × List (String × String))) : Server D :=
  let sender := field reqData "session" "sender"
  let receiver := field reqData "session" "receiver"
  let token := field reqData "session" "token"
  if sender = "" then
    s.PutOut p (NewIMResponseSimple 301 "发送者不能为空!" CREATE_SESSION_RETURN)
  else if receiver = "" then
    s.PutOut p (NewIMResponseSimple 302 "接收者不能为空!" CREATE_SESSION_RETURN)
  else if token = "" then
    s.PutOut p (NewIMResponseSimple 303 "用户令牌不能为空!" CREATE_SESSION_RETURN)
  else
    let g := s.GetConversation e sender receiver
    let a := if g.1.Id = "" then g.2.AddConversation e sender receiver else (g.1.Id, g.2)
    let conversationId := a.1
    if conversationId = "" then
      a.2.PutOut p (NewIMResponseSimple 304 "创建会话失败" GET_CONN_RETURN)
    else
      a.2.PutOut p
        (NewIMResponseData
          (SetData "session" [("ticket", Value.str conversationId), ("receiver", Value.str receiver)])
          CREATE_SESSION_RETURN)

/-- The `PUSH_MSG` response built in the delivery loop of `SEND_MSG`. -/
def pushMsg (sender ticket content : String) : IMResponse :=
  NewIMResponseData
    (SetData "message"
      [("sender", Value.str sender), ("ticket", Value.str ticket), ("content", Value.str content)])
    PUSH_MSG

/-- One iteration of `for _, key := range keys` in `SEND_MSG` (lines 246-259),
on the pair (server, isSent). -/
def sendMsgStep (sender ticket content : String) (acc : Server D × Bool) (key : String) :
    Server D × Bool :=
  match acc.1.client key with
  | none => acc
  | some q => (acc.1.PutOut q (pushMsg sender ticket content), true)

/-- The arm `case common.SEND_MSG` (lines 230-267). -/
def sendMsg (e : Env D) (s : Server D) (p : Nat) (client : Client)
    (reqData : List (String × List (String × String))) : Server D :=
  let ticket := field reqData "message" "ticket"
  let content := field reqData "message" "content"
  if ticket = "" then
    s.PutOut p (NewIMResponseSimple 301 "Ticket不能为空!" SEND_MSG_RETURN)
  else if content = "" then
    s.PutOut p (NewIMResponseSimple 302 "消息内容不能为空!" SEND_MSG_RETURN)
  else
    let c := s.GetConversationById e ticket
    if c.1.Id ≠ "" then
      let k := c.2.GetReceiverKeyByTicket e (field reqData "message" "ticket")
      let r := k.1.foldl (sendMsgStep client.Login.UserId ticket content) (k.2, false)
      if !r.2 then
        r.1.PutOut p (NewIMResponseSimple 304 "对方不在线!" GET_CONN_RETURN)
      else r.1
    else
      c.2.PutOut p (NewIMResponseSimple 303 "会话已关闭!" SEND_MSG_RETURN)

/-- The `PUSH_STATUS_CHANGE` response built in the notification loop. -/
def pushStatusChange (id state : String) : IMResponse :=
  NewIMResponseData
    (SetData "user" [("id", Value.str id), ("state", Value.str state)])
    PUSH_STATUS_CHANGE

/-- One iteration of `for i := 0; i < len(keys); i++` in `SEND_STATUS_CHANGE`
(lines 289-295): `this.clients[keys[i]].PutOut(...)` without a nil check, so a
key that is not in the table panics. -/
def statusChangeStep (id state : String) (s : Server D) (key : String) : Option (Server D) :=
  match s.client key with
  | none => none
  | some q => some (s.PutOut q (pushStatusChange id state))

/-- The arm `case common.SEND_STATUS_CHANGE` (lines 269-309). -/
def sendStatusChange (e : Env D) (s : Server D) (p : Nat)
    (reqData : List (String × List (String × String))) : Option (Server D) :=
  let token := field reqData "user" "token"
  let status := field reqData "user" "status"
  if token = "" then
    some (s.PutOut p (NewIMResponseSimple 501 "TOKEN不能为空!" SEND_STATUS_CHANGE))
  else if status = "" then
    some (s.PutOut p (NewIMResponseSimple 501 "状态不能为空!" SEND_STATUS_CHANGE))
  else
    let g := s.GetUserByToken e token
    let user := g.1
    if user.Id = "" then
      if EqualFold e.orbit user.Status status then
        let u := g.2.UpdateUserStatus e user.Id status
        if u.1 then
          let k := u.2.GetBuddiesKeyById e user.Id
          k.1.foldlM (statusChangeStep user.Id (field reqData "user" "status")) k.2
        else
          some (u.2.PutOut p (NewIMResponseSimple 501 "修改状态失败,请重新尝试!" SEND_STATUS_CHANGE))
      else
        some (g.2.PutOut p (NewIMResponseSimple 501 "请退出重新登录!" SEND_STATUS_CHANGE))
    else
      some (g.2.PutOut p (NewIMResponseSimple 501 "Token不合法!" SEND_STATUS_CHANGE))

/-- The method `Server.receivedHandler(request)` (lines 129-314). Dereferencing
a client pointer that is not allocated panics (`none`). -/
def receivedHandler (e : Env D) (s : Server D) (request : IMRequest) : Option (Server D) :=
  match s.heap[request.Client]? with
  | none => none
  | some client =>
    let p := request.Client
    let reqData := request.Data
    if request.Command = GET_CONN then
      some (getConn e s p client reqData)
    else if client.Login.Id = "" then
      some (s.PutOut p (NewIMResponseSimple 401 "用户未登录!" UNAUTHORIZED))
    else if request.Command = GET_BUDDY_LIST then
      some (getBuddyList e s p reqData)
    else if request.Command = CREATE_SESSION then
      some (createSession e s p reqData)
    else if request.Command = SEND_MSG then
      some (sendMsg e s p client reqData)
    else if request.Command = SEND_STATUS_CHANGE then
      sendStatusChange e s p reqData
    else if request.Command = LOGOUT_REQUEST then
      some (s.Quiting p)
    else
      some s

/-! ## `Server.quitHandler` and `Server.joinHandler` -/

/-- The method `Server.quitHandler(client)` (lines 108-124); `none` as argument is
the nil pointer. -/
def quitHandler (e : Env D) (s : Server D) (client : Option Nat) : Option (Server D) :=
  match client with
  | none => some s
  | some p =>
    match s.heap[p]? with
    | none => none
    | some c =>
      let s := s.DeleteConnByKey e c.Key
      let n := s.CountConnByKey e c.Key
      let s := if n.1 = 0 then (n.2.UpdateUserStatus e c.Login.UserId "0").2 else n.2
      some ((s.Close p).deleteClient c.Key)

/-- Modelled from the spec: `common.CreateClient(key, conn)` allocates a session
with the given key, an empty `Login` and open channels. -/
def CreateClient (key : String) : Client :=
  { Key := key, Login := { Id := "", Token := "", UserId := "" }, closed := false }

/-- The method `Server.joinHandler(conn)` (lines 72-103), with the result `key`
of `uuid.New()` as a parameter. The new client is allocated at the end of the heap. -/
def joinHandler (s : Server D) (key : String) : Server D :=
  let p := s.heap.length
  let s := { s with heap := s.heap ++ [CreateClient key] }
  let s := s.insertClient key p
  s.PutOut p (NewIMResponseData (SetData "conn" [("key", Value.str key)]) GET_KEY_RETURN)

/-! ## An in-memory PersistenceGateway

Used to run the handlers on concrete inputs. -/

/-- An in-memory store: login records, users, connection records,
conversations, buddy categories per user id and buddy pairs (user id, buddy id). -/
structure Store where
  logins : List Login
  users : List User
  conns : List Conn
  conversations : List Conversation
  categories : List (String × Category)
  buddies : List (String × String)
deriving DecidableEq, Repr

/-- The zero `Login`. -/
def Login.zero : Login := { Id := "", Token := "", UserId := "" }

/-- The zero `User`. -/
def User.zero : User := { Id := "", Status := "" }

/-- The zero `Conn`. -/
def Conn.zero : Conn := { Key := "", UserId := "", Token := "" }

/-- The zero `Conversation`. -/
def Conversation.zero : Conversation := { Id := "", Sender := "", Receiver := "" }

/-- Token comparison of the store: exact, or case-insensitive on ASCII letters
(a token column with a case-insensitive collation) when `ci` is set. -/
def tokenMatch (ci : Bool) (a b : String) : Bool :=
  if ci then EqualFold (fun _ _ => false) a b else a == b

/-- Set the status of every user row with the given id. -/
def Store.setStatus (d : Store) (userId status : String) : Store :=
  { d with users := d.users.map (fun u => if u.Id = userId then { u with Status := status } else u) }

/-- Modelled from the spec: the PersistenceGateway (package `model`, which is
outside `server.go`) over the in-memory store. A lookup that finds nothing
returns the zero record, `UpdateUserStatus` fails when no user row has the id,
`AddConversation` fails (returns the empty id) when the receiver is not a user,
`DeleteConnByKey` removes the connection records of the key, and
`CountConnByKey` counts the connection records of the user that has a record
under the key (the "remaining connections for that user"). -/
def storeGateway (ci : Bool) : Gateway Store where
  GetLoginByToken d token := (d.logins.find? (fun l => tokenMatch ci l.Token token)).getD Login.zero
  UpdateUserStatus d userId status :=
    if d.users.any (fun u => u.Id = userId) then (true, d.setStatus userId status) else (false, d)
  GetConnByToken d token := (d.conns.find? (fun c => tokenMatch ci c.Token token)).getD Conn.zero
  UpdateConnByToken d key userId token :=
    (((d.conns.filter (fun c => tokenMatch ci c.Token token)).length : Nat),
     { d with conns := d.conns.map (fun c =>
         if tokenMatch ci c.Token token then { c with Key := key, UserId := userId } else c) })
  AddConn d key userId token :=
    (1, { d with conns := d.conns ++ [{ Key := key, UserId := userId, Token := token }] })
  GetCategoriesByToken d token :=
    let uid := ((d.logins.find? (fun l => tokenMatch ci l.Token token)).getD Login.zero).UserId
    (d.categories.filter (fun c => c.1 = uid)).map (fun c => c.2)
  GetBuddiesByCategories _ cs := cs
  GetConversation d sender receiver :=
    (d.conversations.find? (fun c => c.Sender = sender ∧ c.Receiver = receiver)).getD
      Conversation.zero
  AddConversation d sender receiver :=
    if d.users.any (fun u => u.Id = receiver) then
      (sender ++ ":" ++ receiver,
       { d with conversations := d.conversations ++
           [{ Id := sender ++ ":" ++ receiver, Sender := sender, Receiver := receiver }] })
    else ("", d)
  GetConversationById d ticket :=
    (d.conversations.find? (fun c => c.Id = ticket)).getD Conversation.zero
  GetReceiverKeyByTicket d ticket :=
    let conv := (d.conversations.find? (fun c => c.Id = ticket)).getD Conversation.zero
    (d.conns.filter (fun c => c.UserId = conv.Receiver)).map (fun c => c.Key)
  GetUserByToken d token :=
    let uid := ((d.logins.find? (fun l => tokenMatch ci l.Token token)).getD Login.zero).UserId
    (d.users.find? (fun u => u.Id = uid)).getD User.zero
  GetBuddiesKeyById d userId :=
    (d.conns.filter (fun c => d.buddies.any (fun b => b.1 = userId ∧ b.2 = c.UserId))).map
      (fun c => c.Key)
  DeleteConnByKey d key := { d with conns := d.conns.filter (fun c => c.Key ≠ key) }
  CountConnByKey d key :=
    ((d.conns.filter (fun c =>
        d.conns.any (fun k => k.Key = key ∧ k.UserId = c.UserId))).length : Nat)

/-- The environment of the in-memory gateway with exact token comparison. -/
def storeEnv : Env Store := { model := storeGateway false, orbit := fun _ _ => false }

/-- The environment of the in-memory gateway with case-insensitive token lookup. -/
def storeEnvCI : Env Store := { model := storeGateway true, orbit := fun _ _ => false }

/-- A store with two users: token "tA" logs in user "uA", token "tB" user "uB";
"uB" is connected under key "kB"; one conversation "T" from "uA" to "uB". -/
def demoStore : Store :=
  { logins := [{ Id := "1", Token := "tA", UserId := "uA" },
               { Id := "2", Token := "tB", UserId := "uB" }],
    users := [{ Id := "uA", Status := "0" }, { Id := "uB", Status := "1" }],
    conns := [{ Key := "kB", UserId := "uB", Token := "tB" }],
    conversations := [{ Id := "T", Sender := "uA", Receiver := "uB" }],
    categories := [],
    buddies := [("uA", "uB")] }

/-- The server before any connection, over a given store. -/
def emptyServer (d : Store) : Server Store :=
  { heap := [], clients := [], db := d, out := [], calls := [], quits := [] }

/-- Two sessions: client 0 under key "kA" (not logged in) and client 1 under
key "kB", logged in as user "uB". -/
def demoServer : Server Store :=
  { heap := [{ Key := "kA", Login := Login.zero, closed := false },
             { Key := "kB", Login := { Id := "2", Token := "tB", UserId := "uB" }, closed := false }],
    clients := [("kA", 0), ("kB", 1)],
    db := demoStore, out := [], calls := [], quits := [] }

/-- A store whose login record for token "tC" names a user "uC" that has no user
row, so that `UpdateUserStatus` fails for it. -/
def orphanStore : Store :=
  { logins := [{ Id := "3", Token := "tC", UserId := "uC" }],
    users := [], conns := [], conversations := [], categories := [], buddies := [] }

/-! ## Specification predicates -/

/-- The conditions under which `receivedHandler` takes a validation,
authorization or business-failure path, read off the request, the originating
client, the ClientTable and the results of the model calls:
an empty required field; for GET_CONN a token that does not match the login
record (302), a login record without id (303) or a failed presence update (304);
an empty Login.Id for any other command (401); for CREATE_SESSION no
conversation found and none created (304); for SEND_MSG an unknown conversation
(303) or no recipient key in the ClientTable (304); for SEND_STATUS_CHANGE a
user that the code rejects (non-empty id, 501), a token that resolves to no user
(the zero User), a status that does not match, or a failed status update. -/
def failurePath (e : Env D) (s : Server D) (request : IMRequest) (client : Client) : Prop :=
  if request.Command = GET_CONN then
    field request.Data "user" "token" = "" ∨
    EqualFold e.orbit
      (e.model.GetLoginByToken s.db (field request.Data "user" "token")).Token
      (field request.Data "user" "token") = false ∨
    (e.model.GetLoginByToken s.db (field request.Data "user" "token")).Id = "" ∨
    (e.model.UpdateUserStatus s.db
      (e.model.GetLoginByToken s.db (field request.Data "user" "token")).UserId "1").1 = false
  else
    client.Login.Id = "" ∨
    (request.Command = GET_BUDDY_LIST ∧ field request.Data "user" "token" = "") ∨
    (request.Command = CREATE_SESSION ∧
      (field request.Data "session" "sender" = "" ∨
       field request.Data "session" "receiver" = "" ∨
       field request.Data "session" "token" = "" ∨
       ((e.model.GetConversation s.db (field request.Data "session" "sender")
            (field request.Data "session" "receiver")).Id = "" ∧
        (e.model.AddConversation s.db (field request.Data "session" "sender")
            (field request.Data "session" "receiver")).1 = ""))) ∨
    (request.Command = SEND_MSG ∧
      (field request.Data "message" "ticket" = "" ∨
       field request.Data "message" "content" = "" ∨
       (e.model.GetConversationById s.db (field request.Data "message" "ticket")).Id = "" ∨
       ∀ key ∈ e.model.GetReceiverKeyByTicket s.db (field request.Data "message" "ticket"),
         s.client key = none)) ∨
    (request.Command = SEND_STATUS_CHANGE ∧
      (field request.Data "user" "token" = "" ∨
       field request.Data "user" "status" = "" ∨
       (e.model.GetUserByToken s.db (field request.Data "user" "token")).Id ≠ "" ∨
       e.model.GetUserByToken s.db (field request.Data "user" "token") = User.zero ∨
       EqualFold e.orbit
         (e.model.GetUserByToken s.db (field request.Data "user" "token")).Status
         (field request.Data "user" "status") = false ∨
       (e.model.UpdateUserStatus s.db
         (e.model.GetUserByToken s.db (field request.Data "user" "token")).Id
         (field request.Data "user" "status")).1 = false))

/-- What "exactly one response, to the originating session" means for a handler
result `s1` started from `s`: the trace of written responses grew by a single
entry, addressed to client `p`, and that entry is an error response. -/
def oneErrorReply (s s1 : Server D) (p : Nat) : Prop :=
  ∃ code message command,
    s1.out = s.out ++ [(p, NewIMResponseSimple code message command)]

/-- The deliveries of one response `r` along a recipient key list: one entry per
list entry whose key is in the ClientTable, in list order, addressed to the
session registered under that key. -/
def deliveries (clients : List (String × Nat)) (keys : List String) (r : IMResponse) :
    List (Nat × IMResponse) :=
  keys.filterMap (fun key => (clients.lookup key).map (fun q => (q, r)))

/-- The recipient keys that are present in the ClientTable. -/
def connectedKeys (clients : List (String × Nat)) (keys : List String) : List String :=
  keys.filter (fun key => (clients.lookup key).isSome)

/-- Every ClientTable entry maps its key to an allocated client carrying that
key, as `joinHandler` registers it. -/
def tableWellFormed (s : Server D) : Prop :=
  ∀ kv ∈ s.clients, (s.heap[kv.2]?).map (fun c => c.Key) = some kv.1

/-- Two logged-in sessions, client 0 under key "kA" as user "uA" and client 1
under key "kB" as user "uB"; the store also holds a stale connection record of
"uB" under key "kOld", which is not in the ClientTable. -/
def chatServer : Server Store :=
  { heap := [{ Key := "kA", Login := { Id := "1", Token := "tA", UserId := "uA" }, closed := false },
             { Key := "kB", Login := { Id := "2", Token := "tB", UserId := "uB" }, closed := false }],
    clients := [("kA", 0), ("kB", 1)],
    db := { demoStore with
            users := [{ Id := "uA", Status := "1" }, { Id := "uB", Status := "1" }],
            conns := [{ Key := "kA", UserId := "uA", Token := "tA" },
                      { Key := "kB", UserId := "uB", Token := "tB" },
                      { Key := "kOld", UserId := "uB", Token := "tB" }] },
    out := [], calls := [], quits := [] }

/-- The request SEND_MSG with ticket "T" and content "hi" from client 0. -/
def helloRequest : IMRequest :=
  { Client := 0, Command := SEND_MSG,
    Data := [("message", [("ticket", "T"), ("content", "hi")])] }

/-- The properties of the PersistenceGateway on which repeating quit-handling
rests: deleting the connection records of a key twice is deleting them once; a
presence update commutes with that deletion and does not change the connection
count of a key; and writing the same status twice is writing it once. -/
structure QuitLaws (g : Gateway D) : Prop where
  delete_idem : ∀ d key, g.DeleteConnByKey (g.DeleteConnByKey d key) key = g.DeleteConnByKey d key
  delete_update : ∀ d key userId status,
    g.DeleteConnByKey (g.UpdateUserStatus d userId status).2 key =
      (g.UpdateUserStatus (g.DeleteConnByKey d key) userId status).2
  count_update : ∀ d key userId status,
    g.CountConnByKey (g.UpdateUserStatus d userId status).2 key = g.CountConnByKey d key
  update_idem : ∀ d userId status,
    (g.UpdateUserStatus (g.UpdateUserStatus d userId status).2 userId status).2 =
      (g.UpdateUserStatus d userId status).2

/-- The chat server with a third client, key "kGone", logged in as "uB", already
closed: its key is not in the ClientTable and it has no connection record, while
"uB" is still connected under key "kB". -/
def staleServer : Server Store :=
  { chatServer with
    heap := chatServer.heap ++
      [{ Key := "kGone", Login := { Id := "2", Token := "tB", UserId := "uB" }, closed := true }] }

/-- Two registered sessions of the same user "uB": client 0 under key "k1" and
client 1 under key "k2", each with its connection record; "uB" is online. -/
def twoConnServer : Server Store :=
  { heap := [{ Key := "k1", Login := { Id := "2", Token := "tB", UserId := "uB" }, closed := false },
             { Key := "k2", Login := { Id := "2", Token := "tB", UserId := "uB" }, closed := false }],
    clients := [("k1", 0), ("k2", 1)],
    db := { demoStore with
            users := [{ Id := "uA", Status := "0" }, { Id := "uB", Status := "1" }],
            conns := [{ Key := "k1", UserId := "uB", Token := "tB" },
                      { Key := "k2", UserId := "uB", Token := "tB" }] },
    out := [], calls := [], quits := [] }

/-- A server whose store has a user row with the empty id and status "1", with
buddy "uB"; "uB" has a connection record under key "kGone", which is not in the
ClientTable. Client 0, key "kA", is logged in as "uA". -/
def ghostServer : Server Store :=
  { heap := [{ Key := "kA", Login := { Id := "1", Token := "tA", UserId := "uA" }, closed := false }],
    clients := [("kA", 0)],
    db := { logins := [{ Id := "1", Token := "tA", UserId := "uA" }],
            users := [{ Id := "", Status := "1" }, { Id := "uA", Status := "1" }],
            conns := [{ Key := "kGone", UserId := "uB", Token := "tB" }],
            conversations := [], categories := [],
            buddies := [("", "uB")] },
    out := [], calls := [], quits := [] }

/-- A call that writes a connection record (insert or update). -/
def Call.isConnWrite : Call → Bool
  | Call.UpdateConnByToken _ _ _ => true
  | Call.AddConn _ _ _ => true
  | _ => false

/-! ## Unauthorized and invalid `GET_CONN` requests -/

/-- C1: a request whose command is not GET_CONN, from a session whose Login.Id
is empty, is answered by exactly one response, written to the originating
session, with code 401 and the UNAUTHORIZED command; no model call is made,
nothing is written to any other session, and the ClientTable, the heap (hence
the session's Login), the store and the quit signals are unchanged. -/
theorem C1_unauthorized_only_reply (e : Env D) (s : Server D) (request : IMRequest)
    (client : Client) (hclient : s.heap[request.Client]? = some client)
    (hcmd : request.Command ≠ GET_CONN) (hid : client.Login.Id = "") :
    ∃ s1, receivedHandler e s request = some s1 ∧
      s1.out = s.out ++ [(request.Client, NewIMResponseSimple 401 "用户未登录!" UNAUTHORIZED)] ∧
      s1.calls = s.calls ∧ s1.clients = s.clients ∧ s1.heap = s.heap ∧ s1.db = s.db ∧
      s1.quits = s.quits := by
  refine ⟨s.PutOut request.Client (NewIMResponseSimple 401 "用户未登录!" UNAUTHORIZED), ?_, ?_⟩
  · simp [receivedHandler, hclient, hcmd, hid]
  · simp [Server.PutOut]

/-- C1 at a concrete input: client 0 of the demo server is not logged in and
sends SEND_MSG. -/
theorem C1_unauthorized_only_reply_witness :
    demoServer.heap[(0 : Nat)]? =
        some { Key := "kA", Login := Login.zero, closed := false } ∧
      SEND_MSG ≠ GET_CONN ∧
      ∃ s1, receivedHandler storeEnv demoServer
          { Client := 0, Command := SEND_MSG,
            Data := [("message", [("ticket", "T"), ("content", "hi")])] } = some s1 ∧
        s1.out = demoServer.out ++ [(0, NewIMResponseSimple 401 "用户未登录!" UNAUTHORIZED)] ∧
        s1.calls = demoServer.calls ∧ s1.clients = demoServer.clients ∧
        s1.heap = demoServer.heap ∧ s1.db = demoServer.db ∧ s1.quits = demoServer.quits :=
  ⟨rfl, by decide,
   C1_unauthorized_only_reply storeEnv demoServer
     { Client := 0, Command := SEND_MSG,
       Data := [("message", [("ticket", "T"), ("content", "hi")])] }
     { Key := "kA", Login := Login.zero, closed := false } rfl (by decide) rfl⟩

/-- C2: a GET_CONN request whose data.user.token is empty or absent is answered
by exactly one response, code 301, to the originating session; no model call is
made and the heap (hence the session's Login), the ClientTable and the store are
unchanged. -/
theorem C2_empty_token_301 (e : Env D) (s : Server D) (request : IMRequest)
    (client : Client) (hclient : s.heap[request.Client]? = some client)
    (hcmd : request.Command = GET_CONN) (htoken : field request.Data "user" "token" = "") :
    ∃ s1, receivedHandler e s request = some s1 ∧
      s1.out = s.out ++
        [(request.Client, NewIMResponseSimple 301 "用户令牌不能为空!" GET_CONN_RETURN)] ∧
      s1.calls = s.calls ∧ s1.heap = s.heap ∧ s1.clients = s.clients ∧ s1.db = s.db := by
  refine ⟨s.PutOut request.Client
    (NewIMResponseSimple 301 "用户令牌不能为空!" GET_CONN_RETURN), ?_, ?_⟩
  · simp [receivedHandler, hclient, hcmd, getConn, htoken]
  · simp [Server.PutOut]

/-- C2 at a concrete input: client 1 of the demo server (logged in) sends
GET_CONN with no `user` group at all. -/
theorem C2_empty_token_301_witness :
    demoServer.heap[(1 : Nat)]? =
        some { Key := "kB", Login := { Id := "2", Token := "tB", UserId := "uB" },
               closed := false } ∧
      field ([] : List (String × List (String × String))) "user" "token" = "" ∧
      ∃ s1, receivedHandler storeEnv demoServer
          { Client := 1, Command := GET_CONN, Data := [] } = some s1 ∧
        s1.out = demoServer.out ++
          [(1, NewIMResponseSimple 301 "用户令牌不能为空!" GET_CONN_RETURN)] ∧
        s1.calls = demoServer.calls ∧ s1.heap = demoServer.heap ∧
        s1.clients = demoServer.clients ∧ s1.db = demoServer.db :=
  ⟨rfl, rfl,
   C2_empty_token_301 storeEnv demoServer { Client := 1, Command := GET_CONN, Data := [] }
     { Key := "kB", Login := { Id := "2", Token := "tB", UserId := "uB" }, closed := false }
     rfl rfl rfl⟩

/-- C3 as stated fails: with a case-insensitive token lookup, GET_CONN with
token "TA" gets the login record of token "tA", which is not the given token,
yet the request is not answered 302: the presence update and the connection
insert are made and the status-data response is returned. -/
theorem C3_counterexample :
    field [("user", [("token", "TA")])] "user" "token" ≠ "" ∧
      (storeEnvCI.model.GetLoginByToken demoServer.db "TA").Token ≠ "TA" ∧
      ∃ s1, receivedHandler storeEnvCI demoServer
          { Client := 0, Command := GET_CONN, Data := [("user", [("token", "TA")])] } = some s1 ∧
        s1.out = [(0, NewIMResponseData (SetData "conn" [("status", Value.int 1)])
                        GET_CONN_RETURN)] ∧
        s1.calls = [Call.GetLoginByToken "TA", Call.UpdateUserStatus "uA" "1",
                    Call.GetConnByToken "TA", Call.AddConn "kA" "uA" "TA"] := by
  refine ⟨by decide, by decide, _, rfl, ?_, ?_⟩ <;> decide

/-- C3, amended: a GET_CONN request with a non-empty token for which
GetLoginByToken returns a Login whose token does not equal the given token
under case folding (strings.EqualFold) is answered, to the originating session,
with code 302 and command GET_CONN_RETURN; the only model call is the lookup, so
no presence update and no connection-record insert or update is made, and the
store is unchanged. -/
theorem C3_bad_token_302 (e : Env D) (s : Server D) (request : IMRequest)
    (client : Client) (hclient : s.heap[request.Client]? = some client)
    (hcmd : request.Command = GET_CONN) (htoken : field request.Data "user" "token" ≠ "")
    (hlogin : EqualFold e.orbit
        (e.model.GetLoginByToken s.db (field request.Data "user" "token")).Token
        (field request.Data "user" "token") = false) :
    ∃ s1, receivedHandler e s request = some s1 ∧
      s1.out = s.out ++
        [(request.Client, NewIMResponseSimple 302 "该用户令牌无效!" GET_CONN_RETURN)] ∧
      s1.calls = s.calls ++ [Call.GetLoginByToken (field request.Data "user" "token")] ∧
      (∀ c ∈ s1.calls, c ∉ s.calls → c.isPresenceOrConnWrite = false) ∧
      s1.db = s.db ∧ s1.clients = s.clients := by
  refine ⟨_, by simp only [receivedHandler, hclient, hcmd, getConn, htoken]; rfl, ?_⟩
  simp only [Server.GetLoginByToken, hlogin]
  simp only [Server.PutOut, Server.setLogin, Server.called]
  refine ⟨by simp, by simp, ?_, by simp, by simp⟩
  intro c hc hnot
  have hc2 : c ∈ s.calls ∨ c = Call.GetLoginByToken (field request.Data "user" "token") := by
    simpa using hc
  rcases hc2 with hc | hc
  · exact absurd hc hnot
  · subst hc; rfl

/-- C3 (amended) at a concrete input: client 0 of the demo server sends GET_CONN
with the unknown token "zz". -/
theorem C3_bad_token_302_witness :
    demoServer.heap[(0 : Nat)]? =
        some { Key := "kA", Login := Login.zero, closed := false } ∧
      field [("user", [("token", "zz")])] "user" "token" ≠ "" ∧
      EqualFold storeEnv.orbit
        (storeEnv.model.GetLoginByToken demoServer.db
          (field [("user", [("token", "zz")])] "user" "token")).Token
        (field [("user", [("token", "zz")])] "user" "token") = false ∧
      ∃ s1, receivedHandler storeEnv demoServer
          { Client := 0, Command := GET_CONN, Data := [("user", [("token", "zz")])] } = some s1 ∧
        s1.out = demoServer.out ++
          [(0, NewIMResponseSimple 302 "该用户令牌无效!" GET_CONN_RETURN)] ∧
        s1.calls = demoServer.calls ++
          [Call.GetLoginByToken (field [("user", [("token", "zz")])] "user" "token")] ∧
        (∀ c ∈ s1.calls, c ∉ demoServer.calls → c.isPresenceOrConnWrite = false) ∧
        s1.db = demoServer.db ∧ s1.clients = demoServer.clients :=
  ⟨rfl, by decide, by decide,
   C3_bad_token_302 storeEnv demoServer
     { Client := 0, Command := GET_CONN, Data := [("user", [("token", "zz")])] }
     { Key := "kA", Login := Login.zero, closed := false } rfl rfl (by decide) (by decide)⟩

/-! ## `client.Login` is assigned before the token is validated -/

/-- C4, the code at a failing input: a freshly joined session sends GET_CONN with
token "tC"; the presence update fails and the request is answered with error
304, yet the session's Login.Id is now "3" (non-empty), and its next
GET_BUDDY_LIST is served by the command handler instead of being answered 401. -/
theorem C4_failed_get_conn_authenticates :
    ∃ s1 s2,
      receivedHandler storeEnv (joinHandler (emptyServer orphanStore) "k0")
          { Client := 0, Command := GET_CONN, Data := [("user", [("token", "tC")])] } = some s1 ∧
      s1.out = [(0, NewIMResponseData (SetData "conn" [("key", Value.str "k0")]) GET_KEY_RETURN),
                (0, NewIMResponseSimple 304 "设置用户状态失败!" GET_CONN_RETURN)] ∧
      s1.heap = [{ Key := "k0", Login := { Id := "3", Token := "tC", UserId := "uC" },
                   closed := false }] ∧
      receivedHandler storeEnv s1
          { Client := 0, Command := GET_BUDDY_LIST, Data := [("user", [("token", "tC")])] } =
        some s2 ∧
      s2.out = s1.out ++
        [(0, NewIMResponseData (Payload.categories "categories" []) GET_BUDDY_LIST_RETURN)] := by
  refine ⟨_, _, rfl, ?_, ?_, rfl, ?_⟩ <;> decide

/-- C5, the code at a failing input: client 1 of the demo server is logged in and
sends GET_CONN with the unknown token "zz"; the request is answered with error
302, and the session's Login has been overwritten by the zero Login. -/
theorem C5_error_reply_overwrites_login :
    ∃ s1,
      receivedHandler storeEnv demoServer
          { Client := 1, Command := GET_CONN, Data := [("user", [("token", "zz")])] } = some s1 ∧
      s1.out = [(1, NewIMResponseSimple 302 "该用户令牌无效!" GET_CONN_RETURN)] ∧
      demoServer.heap[(1 : Nat)]? =
        some { Key := "kB", Login := { Id := "2", Token := "tB", UserId := "uB" },
               closed := false } ∧
      s1.heap[(1 : Nat)]? = some { Key := "kB", Login := Login.zero, closed := false } := by
  refine ⟨_, rfl, ?_, ?_, ?_⟩ <;> decide

/-! ## Failure paths write exactly one response -/

@[simp]
theorem Server.called_db (s : Server D) (c : Call) : (s.called c).db = s.db := rfl

/-- Recording a call does not touch the ClientTable. -/
@[simp]
theorem Server.called_clients (s : Server D) (c : Call) :
    (s.called c).clients = s.clients := rfl

/-- Recording a call does not touch the clients. -/
@[simp]
theorem Server.called_heap (s : Server D) (c : Call) : (s.called c).heap = s.heap := rfl

/-- Recording a call writes no response. -/
@[simp]
theorem Server.called_out (s : Server D) (c : Call) : (s.called c).out = s.out := rfl

/-- Recording a call does not change a ClientTable read. -/
@[simp]
theorem Server.called_client (s : Server D) (c : Call) (key : String) :
    (s.called c).client key = s.client key := rfl

/-- Writing a response does not change a ClientTable read. -/
@[simp]
theorem Server.putOut_client (s : Server D) (p : Nat) (r : IMResponse) (key : String) :
    (s.PutOut p r).client key = s.client key := rfl

/-- Writing a response appends it to the trace. -/
@[simp]
theorem Server.putOut_out (s : Server D) (p : Nat) (r : IMResponse) :
    (s.PutOut p r).out = s.out ++ [(p, r)] := rfl

/-- The empty string folds only to the empty string. -/
theorem equalFold_empty_left (orbit : Char → Char → Bool) (t : String) (ht : t ≠ "") :
    EqualFold orbit "" t = false := by
  unfold EqualFold
  have h : t.toList ≠ [] := by
    intro h
    apply ht
    cases t with
    | mk data => simp at h; subst h; rfl
  cases hl : t.toList with
  | nil => exact absurd hl h
  | cons b l => simp [equalFoldRunes]

/-- The delivery loop of SEND_MSG does nothing when no key is in the ClientTable. -/
theorem sendMsgStep_none_foldl (sender ticket content : String) (keys : List String)
    (s : Server D) (b : Bool) (h : ∀ key ∈ keys, s.client key = none) :
    keys.foldl (sendMsgStep sender ticket content) (s, b) = (s, b) := by
  induction keys with
  | nil => rfl
  | cons k ks ih =>
    have hk : s.client k = none := h k (List.mem_cons_self _ _)
    have hks : ∀ key ∈ ks, s.client key = none := fun key hkey => h key (List.mem_cons_of_mem _ hkey)
    simp only [List.foldl_cons, sendMsgStep, hk]
    exact ih hks

/-- Each failure condition of GET_CONN yields one error reply to the requester. -/
theorem getConn_failure (e : Env D) (s : Server D) (p : Nat) (client : Client)
    (reqData : List (String × List (String × String)))
    (h : field reqData "user" "token" = "" ∨
      EqualFold e.orbit (e.model.GetLoginByToken s.db (field reqData "user" "token")).Token
        (field reqData "user" "token") = false ∨
      (e.model.GetLoginByToken s.db (field reqData "user" "token")).Id = "" ∨
      (e.model.UpdateUserStatus s.db
        (e.model.GetLoginByToken s.db (field reqData "user" "token")).UserId "1").1 = false) :
    oneErrorReply s (getConn e s p client reqData) p := by
  unfold getConn
  by_cases ht : field reqData "user" "token" = ""
  · simp only [ht, if_true]; exact ⟨_, _, _, rfl⟩
  · by_cases hf : EqualFold e.orbit
        (e.model.GetLoginByToken s.db (field reqData "user" "token")).Token
        (field reqData "user" "token") = false
    · simp only [ht, if_false, Server.GetLoginByToken, hf, Bool.not_false, if_true]
      exact ⟨_, _, _, rfl⟩
    · have hf2 : EqualFold e.orbit
          (e.model.GetLoginByToken s.db (field reqData "user" "token")).Token
          (field reqData "user" "token") = true := by simpa using hf
      by_cases hid : (e.model.GetLoginByToken s.db (field reqData "user" "token")).Id = ""
      · simp only [ht, if_false, Server.GetLoginByToken, hf2, Bool.not_true, hid, ne_eq,
          not_true_eq_false, Bool.false_eq_true]
        exact ⟨_, _, _, rfl⟩
      · have hu : (e.model.UpdateUserStatus s.db
            (e.model.GetLoginByToken s.db (field reqData "user" "token")).UserId "1").1 = false := by
          rcases h with h | h | h | h
          · exact absurd h ht
          · exact absurd h hf
          · exact absurd h hid
          · exact h
        simp only [ht, if_false, Server.GetLoginByToken, hf2, Bool.not_true, hid, ne_eq,
          not_false_eq_true, if_true, Server.UpdateUserStatus, Server.setLogin, Server.called,
          hu, Bool.false_eq_true]
        exact ⟨_, _, _, rfl⟩

/-- An empty token in GET_BUDDY_LIST yields one error reply to the requester. -/
theorem getBuddyList_failure (e : Env D) (s : Server D) (p : Nat)
    (reqData : List (String × List (String × String)))
    (h : field reqData "user" "token" = "") :
    oneErrorReply s (getBuddyList e s p reqData) p := by
  unfold getBuddyList
  simp only [h, if_true]
  exact ⟨_, _, _, rfl⟩

/-- Each failure condition of CREATE_SESSION yields one error reply to the requester. -/
theorem createSession_failure (e : Env D) (s : Server D) (p : Nat)
    (reqData : List (String × List (String × String)))
    (h : field reqData "session" "sender" = "" ∨
       field reqData "session" "receiver" = "" ∨
       field reqData "session" "token" = "" ∨
       ((e.model.GetConversation s.db (field reqData "session" "sender")
            (field reqData "session" "receiver")).Id = "" ∧
        (e.model.AddConversation s.db (field reqData "session" "sender")
            (field reqData "session" "receiver")).1 = "")) :
    oneErrorReply s (createSession e s p reqData) p := by
  unfold createSession
  by_cases h1 : field reqData "session" "sender" = ""
  · simp only [h1, if_true]; exact ⟨_, _, _, rfl⟩
  by_cases h2 : field reqData "session" "receiver" = ""
  · simp only [h1, h2, if_true, if_false]; exact ⟨_, _, _, rfl⟩
  by_cases h3 : field reqData "session" "token" = ""
  · simp only [h1, h2, h3, if_true, if_false]; exact ⟨_, _, _, rfl⟩
  have h4 : (e.model.GetConversation s.db (field reqData "session" "sender")
            (field reqData "session" "receiver")).Id = "" ∧
        (e.model.AddConversation s.db (field reqData "session" "sender")
            (field reqData "session" "receiver")).1 = "" := by
    rcases h with h | h | h | h
    · exact absurd h h1
    · exact absurd h h2
    · exact absurd h h3
    · exact h
  simp only [h1, h2, h3, if_false, Server.GetConversation, h4.1, if_true, Server.AddConversation,
    Server.called, h4.2]
  exact ⟨_, _, _, rfl⟩

/-- Each failure condition of SEND_MSG yields one error reply to the requester. -/
theorem sendMsg_failure (e : Env D) (s : Server D) (p : Nat) (client : Client)
    (reqData : List (String × List (String × String)))
    (h : field reqData "message" "ticket" = "" ∨
       field reqData "message" "content" = "" ∨
       (e.model.GetConversationById s.db (field reqData "message" "ticket")).Id = "" ∨
       ∀ key ∈ e.model.GetReceiverKeyByTicket s.db (field reqData "message" "ticket"),
         s.client key = none) :
    oneErrorReply s (sendMsg e s p client reqData) p := by
  unfold sendMsg
  by_cases h1 : field reqData "message" "ticket" = ""
  · simp only [h1, if_true]; exact ⟨_, _, _, rfl⟩
  by_cases h2 : field reqData "message" "content" = ""
  · simp only [h1, h2, if_true, if_false]; exact ⟨_, _, _, rfl⟩
  by_cases h3 : (e.model.GetConversationById s.db (field reqData "message" "ticket")).Id = ""
  · simp only [h1, h2, if_false, Server.GetConversationById, h3, ne_eq, not_true_eq_false]
    exact ⟨_, _, _, rfl⟩
  have h4 : ∀ key ∈ e.model.GetReceiverKeyByTicket s.db (field reqData "message" "ticket"),
      ((s.called (Call.GetConversationById (field reqData "message" "ticket"))).called
        (Call.GetReceiverKeyByTicket (field reqData "message" "ticket"))).client key = none := by
    rcases h with h | h | h | h
    · exact absurd h h1
    · exact absurd h h2
    · exact absurd h h3
    · exact h
  simp only [h1, h2, if_false, Server.GetConversationById, h3, ne_eq, not_false_eq_true, if_true,
    Server.GetReceiverKeyByTicket, Server.called_db]
  rw [sendMsgStep_none_foldl _ _ _ _ _ _ h4]
  simp only [Bool.not_false, if_true]
  exact ⟨_, _, _, rfl⟩

/-- Each failure condition of SEND_STATUS_CHANGE yields one error reply to the requester, without a fault. -/
theorem sendStatusChange_failure (e : Env D) (s : Server D) (p : Nat)
    (reqData : List (String × List (String × String)))
    (h : field reqData "user" "token" = "" ∨
       field reqData "user" "status" = "" ∨
       (e.model.GetUserByToken s.db (field reqData "user" "token")).Id ≠ "" ∨
       e.model.GetUserByToken s.db (field reqData "user" "token") = User.zero ∨
       EqualFold e.orbit
         (e.model.GetUserByToken s.db (field reqData "user" "token")).Status
         (field reqData "user" "status") = false ∨
       (e.model.UpdateUserStatus s.db
         (e.model.GetUserByToken s.db (field reqData "user" "token")).Id
         (field reqData "user" "status")).1 = false) :
    ∃ s1, sendStatusChange e s p reqData = some s1 ∧ oneErrorReply s s1 p := by
  unfold sendStatusChange
  by_cases h1 : field reqData "user" "token" = ""
  · simp only [h1, if_true]; exact ⟨_, rfl, _, _, _, rfl⟩
  by_cases h2 : field reqData "user" "status" = ""
  · simp only [h1, h2, if_true, if_false]; exact ⟨_, rfl, _, _, _, rfl⟩
  by_cases h3 : (e.model.GetUserByToken s.db (field reqData "user" "token")).Id = ""
  · by_cases h4 : EqualFold e.orbit
         (e.model.GetUserByToken s.db (field reqData "user" "token")).Status
         (field reqData "user" "status") = false
    · simp only [h1, h2, if_false, Server.GetUserByToken, h3, if_true, h4, Bool.false_eq_true]
      exact ⟨_, rfl, _, _, _, rfl⟩
    · have h5 : (e.model.UpdateUserStatus s.db
         (e.model.GetUserByToken s.db (field reqData "user" "token")).Id
         (field reqData "user" "status")).1 = false := by
        rcases h with h | h | h | h | h | h
        · exact absurd h h1
        · exact absurd h h2
        · exact absurd h3 h
        · rw [h] at h4
          exact absurd (equalFold_empty_left e.orbit _ h2) h4
        · exact absurd h h4
        · exact h
      have h4t : EqualFold e.orbit
         (e.model.GetUserByToken s.db (field reqData "user" "token")).Status
         (field reqData "user" "status") = true := by simpa using h4
      rw [h3] at h5
      simp only [h1, h2, if_false, Server.GetUserByToken, h3, if_true, h4t, Server.UpdateUserStatus,
        Server.called, h5, Bool.false_eq_true]
      exact ⟨_, rfl, _, _, _, rfl⟩
  · simp only [h1, h2, if_false, Server.GetUserByToken, h3]
    exact ⟨_, rfl, _, _, _, rfl⟩

/-- C6: whenever receivedHandler takes a validation, authorization or
business-failure path, the handler returns and the trace of written responses
has grown by exactly one entry, an error response addressed to the originating
session. -/
theorem C6_failure_writes_one_response (e : Env D) (s : Server D) (request : IMRequest)
    (client : Client) (hclient : s.heap[request.Client]? = some client)
    (hfail : failurePath e s request client) :
    ∃ s1, receivedHandler e s request = some s1 ∧
      ∃ code message command,
        s1.out = s.out ++ [(request.Client, NewIMResponseSimple code message command)] := by
  unfold failurePath at hfail
  unfold receivedHandler
  simp only [hclient]
  by_cases hgc : request.Command = GET_CONN
  · simp only [hgc, if_true] at hfail ⊢
    exact ⟨_, rfl, getConn_failure e s _ client _ hfail⟩
  simp only [hgc, if_false] at hfail ⊢
  by_cases hid : client.Login.Id = ""
  · simp only [hid, if_true]
    exact ⟨_, rfl, _, _, _, rfl⟩
  simp only [hid, if_false]
  rcases hfail with h | ⟨hc, h⟩ | ⟨hc, h⟩ | ⟨hc, h⟩ | ⟨hc, h⟩
  · exact absurd h hid
  · simp only [hc, if_true]
    exact ⟨_, rfl, getBuddyList_failure e s _ _ h⟩
  · have d1 : CREATE_SESSION ≠ GET_BUDDY_LIST := by decide
    simp only [hc, d1, if_true, if_false]
    exact ⟨_, rfl, createSession_failure e s _ _ h⟩
  · have d1 : SEND_MSG ≠ GET_BUDDY_LIST := by decide
    have d2 : SEND_MSG ≠ CREATE_SESSION := by decide
    simp only [hc, d1, d2, if_true, if_false]
    exact ⟨_, rfl, sendMsg_failure e s _ client _ h⟩
  · have d1 : SEND_STATUS_CHANGE ≠ GET_BUDDY_LIST := by decide
    have d2 : SEND_STATUS_CHANGE ≠ CREATE_SESSION := by decide
    have d3 : SEND_STATUS_CHANGE ≠ SEND_MSG := by decide
    simp only [hc, d1, d2, d3, if_true, if_false]
    exact sendStatusChange_failure e s _ _ h

/-- C6 at a concrete input: client 1 of the demo server (logged in) sends
CREATE_SESSION for a receiver that is no user, so that no conversation is found
and none is created. -/
theorem C6_failure_writes_one_response_witness :
    demoServer.heap[(1 : Nat)]? =
        some { Key := "kB", Login := { Id := "2", Token := "tB", UserId := "uB" },
               closed := false } ∧
      failurePath storeEnv demoServer
        { Client := 1, Command := CREATE_SESSION,
          Data := [("session", [("sender", "uB"), ("receiver", "nobody"), ("token", "tB")])] }
        { Key := "kB", Login := { Id := "2", Token := "tB", UserId := "uB" }, closed := false } ∧
      ∃ s1, receivedHandler storeEnv demoServer
          { Client := 1, Command := CREATE_SESSION,
            Data := [("session", [("sender", "uB"), ("receiver", "nobody"), ("token", "tB")])] } =
          some s1 ∧
        ∃ code message command,
          s1.out = demoServer.out ++ [(1, NewIMResponseSimple code message command)] :=
  ⟨rfl, by unfold failurePath; decide,
   C6_failure_writes_one_response storeEnv demoServer
     { Client := 1, Command := CREATE_SESSION,
       Data := [("session", [("sender", "uB"), ("receiver", "nobody"), ("token", "tB")])] }
     { Key := "kB", Login := { Id := "2", Token := "tB", UserId := "uB" }, closed := false }
     rfl (by unfold failurePath; decide)⟩

/-! ## `SEND_MSG` delivery -/

/-- The delivery loop of SEND_MSG appends the deliveries to the trace and sets
`isSent` exactly when there is one. -/
theorem sendMsgStep_foldl (sender ticket content : String) (keys : List String)
    (s : Server D) (b : Bool) :
    keys.foldl (sendMsgStep sender ticket content) (s, b) =
      ({ s with out := s.out ++ deliveries s.clients keys (pushMsg sender ticket content) },
       b || !(deliveries s.clients keys (pushMsg sender ticket content)).isEmpty) := by
  induction keys generalizing s b with
  | nil => simp [deliveries]
  | cons k ks ih =>
    simp only [List.foldl_cons, sendMsgStep, Server.client]
    cases hk : s.clients.lookup k with
    | none =>
      simp only [ih]
      simp [deliveries, hk]
    | some q =>
      simp only [ih]
      simp [deliveries, hk, Server.PutOut]

/-- The number of deliveries is the number of connected entries of the key list. -/
theorem deliveries_length (clients : List (String × Nat)) (keys : List String) (r : IMResponse) :
    (deliveries clients keys r).length = (connectedKeys clients keys).length := by
  induction keys with
  | nil => rfl
  | cons k ks ih =>
    cases hk : clients.lookup k with
    | none => simpa [deliveries, connectedKeys, hk] using ih
    | some q => simpa [deliveries, connectedKeys, hk] using ih

/-- Every delivery carries the response `r` and goes to the session registered
under one of the keys. -/
theorem mem_deliveries (clients : List (String × Nat)) (keys : List String) (r : IMResponse)
    (x : Nat × IMResponse) (hx : x ∈ deliveries clients keys r) :
    x.2 = r ∧ ∃ key ∈ keys, clients.lookup key = some x.1 := by
  simp only [deliveries, List.mem_filterMap] at hx
  obtain ⟨key, hkey, hq⟩ := hx
  cases hl : clients.lookup key with
  | none => simp [hl] at hq
  | some q =>
    simp only [hl, Option.map_some', Option.some.injEq] at hq
    subst hq
    exact ⟨rfl, key, hkey, hl⟩

/-- The result of the arm SEND_MSG for a request that passes validation and
whose ticket resolves to a conversation. -/
theorem sendMsg_valid (e : Env D) (s : Server D) (p : Nat) (client : Client)
    (reqData : List (String × List (String × String)))
    (hticket : field reqData "message" "ticket" ≠ "")
    (hcontent : field reqData "message" "content" ≠ "")
    (hconv : (e.model.GetConversationById s.db (field reqData "message" "ticket")).Id ≠ "") :
    (sendMsg e s p client reqData).out =
      s.out ++
        deliveries s.clients
          (e.model.GetReceiverKeyByTicket s.db (field reqData "message" "ticket"))
          (pushMsg client.Login.UserId (field reqData "message" "ticket")
            (field reqData "message" "content")) ++
        (if (deliveries s.clients
              (e.model.GetReceiverKeyByTicket s.db (field reqData "message" "ticket"))
              (pushMsg client.Login.UserId (field reqData "message" "ticket")
                (field reqData "message" "content"))).isEmpty
         then [(p, NewIMResponseSimple 304 "对方不在线!" GET_CONN_RETURN)] else []) := by
  unfold sendMsg
  simp only [hticket, hcontent, if_false, Server.GetConversationById, hconv, ne_eq,
    not_false_eq_true, if_true, Server.GetReceiverKeyByTicket, Server.called_db,
    sendMsgStep_foldl, Bool.false_or, Bool.not_not, Server.called_clients, Server.called_out]
  split <;> simp [Server.PutOut]

/-- An authenticated SEND_MSG request is handled by the arm SEND_MSG. -/
theorem receivedHandler_sendMsg (e : Env D) (s : Server D) (request : IMRequest)
    (client : Client) (hclient : s.heap[request.Client]? = some client)
    (hcmd : request.Command = SEND_MSG) (hid : client.Login.Id ≠ "") :
    receivedHandler e s request = some (sendMsg e s request.Client client request.Data) := by
  have d0 : SEND_MSG ≠ GET_CONN := by decide
  have d1 : SEND_MSG ≠ GET_BUDDY_LIST := by decide
  have d2 : SEND_MSG ≠ CREATE_SESSION := by decide
  simp only [receivedHandler, hclient, hcmd, d0, d1, d2, hid, if_false, if_true]

/-- No key of the list in the ClientTable means no delivery. -/
theorem deliveries_eq_nil (clients : List (String × Nat)) (keys : List String) (r : IMResponse)
    (h : ∀ key ∈ keys, clients.lookup key = none) : deliveries clients keys r = [] := by
  induction keys with
  | nil => rfl
  | cons k ks ih =>
    have hk : clients.lookup k = none := h k (List.mem_cons_self _ _)
    have hks : deliveries clients ks r = [] :=
      ih (fun key hkey => h key (List.mem_cons_of_mem _ hkey))
    simpa [deliveries, hk] using hks

/-- C7: for an authenticated session and a SEND_MSG request with non-empty
ticket and content whose ticket resolves to an existing conversation, if none of
the recipient keys returned by GetReceiverKeyByTicket is in the ClientTable
(also when the list is empty), the handler writes exactly one response, code
304, to the sender, and no PUSH_MSG to any session. -/
theorem C7_no_recipient_304 (e : Env D) (s : Server D) (request : IMRequest)
    (client : Client) (hclient : s.heap[request.Client]? = some client)
    (hcmd : request.Command = SEND_MSG) (hid : client.Login.Id ≠ "")
    (hticket : field request.Data "message" "ticket" ≠ "")
    (hcontent : field request.Data "message" "content" ≠ "")
    (hconv : (e.model.GetConversationById s.db (field request.Data "message" "ticket")).Id ≠ "")
    (hnone : ∀ key ∈ e.model.GetReceiverKeyByTicket s.db (field request.Data "message" "ticket"),
      s.client key = none) :
    ∃ s1, receivedHandler e s request = some s1 ∧
      s1.out = s.out ++
        [(request.Client, NewIMResponseSimple 304 "对方不在线!" GET_CONN_RETURN)] := by
  refine ⟨_, receivedHandler_sendMsg e s request client hclient hcmd hid, ?_⟩
  rw [sendMsg_valid e s _ client _ hticket hcontent hconv,
    deliveries_eq_nil _ _ _ hnone]
  simp

/-- C7 at a concrete input: client 1 of the demo server sends a message on
ticket "T2", whose receiver "uA" has no connection record, so the key list is
empty. -/
theorem C7_no_recipient_304_witness :
    ∃ s1, receivedHandler storeEnv
        { demoServer with
          db := { demoStore with
                  conversations := [{ Id := "T2", Sender := "uB", Receiver := "uA" }] } }
        { Client := 1, Command := SEND_MSG,
          Data := [("message", [("ticket", "T2"), ("content", "hi")])] } = some s1 ∧
      s1.out = [] ++ [(1, NewIMResponseSimple 304 "对方不在线!" GET_CONN_RETURN)] :=
  C7_no_recipient_304 storeEnv
    { demoServer with
      db := { demoStore with
              conversations := [{ Id := "T2", Sender := "uB", Receiver := "uA" }] } }
    { Client := 1, Command := SEND_MSG,
      Data := [("message", [("ticket", "T2"), ("content", "hi")])] }
    { Key := "kB", Login := { Id := "2", Token := "tB", UserId := "uB" }, closed := false }
    rfl rfl (by decide) (by decide) (by decide) (by decide) (by decide)

/-- C8: for an authenticated session and a valid SEND_MSG request whose ticket
resolves to an existing conversation with recipient key list `keys`, the
responses written are the deliveries of the PUSH_MSG along `keys` (one per entry
that is in the ClientTable, in list order, to the session registered under it),
followed by the 304 reply to the sender only when there is no delivery; so the
PUSH_MSG responses written are exactly these K deliveries, K being the number of
connected entries, and each goes to a session registered under a key of the
list. -/
theorem C8_exactly_K_deliveries (e : Env D) (s : Server D) (request : IMRequest)
    (client : Client) (hclient : s.heap[request.Client]? = some client)
    (hcmd : request.Command = SEND_MSG) (hid : client.Login.Id ≠ "")
    (hticket : field request.Data "message" "ticket" ≠ "")
    (hcontent : field request.Data "message" "content" ≠ "")
    (hconv : (e.model.GetConversationById s.db (field request.Data "message" "ticket")).Id ≠ "") :
    ∃ s1 pushes rest, receivedHandler e s request = some s1 ∧
      s1.out = s.out ++ pushes ++ rest ∧
      pushes = deliveries s.clients
        (e.model.GetReceiverKeyByTicket s.db (field request.Data "message" "ticket"))
        (pushMsg client.Login.UserId (field request.Data "message" "ticket")
          (field request.Data "message" "content")) ∧
      pushes.length = (connectedKeys s.clients
        (e.model.GetReceiverKeyByTicket s.db (field request.Data "message" "ticket"))).length ∧
      (∀ x ∈ pushes, x.2.command = PUSH_MSG ∧
        ∃ key ∈ e.model.GetReceiverKeyByTicket s.db (field request.Data "message" "ticket"),
          s.client key = some x.1) ∧
      (∀ x ∈ rest, x.2.command ≠ PUSH_MSG) := by
  refine ⟨_, _, _, receivedHandler_sendMsg e s request client hclient hcmd hid,
    sendMsg_valid e s _ client _ hticket hcontent hconv, rfl, deliveries_length _ _ _, ?_, ?_⟩
  · intro x hx
    obtain ⟨h1, h2⟩ := mem_deliveries _ _ _ x hx
    exact ⟨by rw [h1]; rfl, h2⟩
  · intro x hx
    split at hx
    · simp only [List.mem_singleton] at hx
      subst hx
      show GET_CONN_RETURN ≠ PUSH_MSG
      decide
    · simp at hx

/-- C8 at a concrete input: client 0 of the chat server sends on ticket "T",
whose recipient keys are "kB" (connected) and "kOld" (not connected). -/
theorem C8_exactly_K_deliveries_witness :
    storeEnv.model.GetReceiverKeyByTicket chatServer.db "T" = ["kB", "kOld"] ∧
    ∃ s1 pushes rest, receivedHandler storeEnv chatServer helloRequest = some s1 ∧
      s1.out = chatServer.out ++ pushes ++ rest ∧
      pushes = deliveries chatServer.clients
        (storeEnv.model.GetReceiverKeyByTicket chatServer.db
          (field helloRequest.Data "message" "ticket"))
        (pushMsg "uA" (field helloRequest.Data "message" "ticket")
          (field helloRequest.Data "message" "content")) ∧
      pushes.length = (connectedKeys chatServer.clients
        (storeEnv.model.GetReceiverKeyByTicket chatServer.db
          (field helloRequest.Data "message" "ticket"))).length ∧
      (∀ x ∈ pushes, x.2.command = PUSH_MSG ∧
        ∃ key ∈ storeEnv.model.GetReceiverKeyByTicket chatServer.db
            (field helloRequest.Data "message" "ticket"),
          chatServer.client key = some x.1) ∧
      (∀ x ∈ rest, x.2.command ≠ PUSH_MSG) :=
  ⟨by decide, C8_exactly_K_deliveries storeEnv chatServer helloRequest
    { Key := "kA", Login := { Id := "1", Token := "tA", UserId := "uA" }, closed := false }
    rfl rfl (by decide) (by decide) (by decide) (by decide)⟩

/-- A key found in a well-formed ClientTable is the key of the client it maps to. -/
theorem key_of_client (s : Server D) (hwf : tableWellFormed s) (key : String) (q : Nat)
    (c : Client) (hq : s.client key = some q) (hc : s.heap[q]? = some c) : c.Key = key := by
  have hmem : (key, q) ∈ s.clients := by
    have h := hq
    unfold Server.client at h
    generalize s.clients = l at h
    induction l with
    | nil => simp [List.lookup] at h
    | cons kv l ih =>
      obtain ⟨k0, q0⟩ := kv
      by_cases hk : key = k0
      · subst hk
        simp [List.lookup] at h
        subst h
        exact List.mem_cons_self _ _
      · have hb : (key == k0) = false := by simpa using hk
        simp only [List.lookup, hb] at h
        exact List.mem_cons_of_mem _ (ih h)
  have h := hwf (key, q) hmem
  simp only [hc, Option.map_some', Option.some.injEq] at h
  exact h

/-- C9: for an authenticated sender and a valid SEND_MSG request with at least
one connected recipient key, the responses written are all PUSH_MSG responses
carrying exactly sender = the sending session's Login.UserId, ticket = the
request's ticket and content = the request's content, each to a session
registered under a recipient key; the sender receives a response only if its
own key is among the recipient keys. -/
theorem C9_push_fields_no_ack (e : Env D) (s : Server D) (request : IMRequest)
    (client : Client) (hwf : tableWellFormed s)
    (hclient : s.heap[request.Client]? = some client)
    (hcmd : request.Command = SEND_MSG) (hid : client.Login.Id ≠ "")
    (hticket : field request.Data "message" "ticket" ≠ "")
    (hcontent : field request.Data "message" "content" ≠ "")
    (hconv : (e.model.GetConversationById s.db (field request.Data "message" "ticket")).Id ≠ "")
    (hsome : ∃ key ∈ e.model.GetReceiverKeyByTicket s.db (field request.Data "message" "ticket"),
      s.client key ≠ none) :
    ∃ s1 written, receivedHandler e s request = some s1 ∧
      s1.out = s.out ++ written ∧ written ≠ [] ∧
      (∀ x ∈ written,
        x.2 = NewIMResponseData
          (SetData "message"
            [("sender", Value.str client.Login.UserId),
             ("ticket", Value.str (field request.Data "message" "ticket")),
             ("content", Value.str (field request.Data "message" "content"))])
          PUSH_MSG ∧
        ∃ key ∈ e.model.GetReceiverKeyByTicket s.db (field request.Data "message" "ticket"),
          s.client key = some x.1) ∧
      ((∃ r, (request.Client, r) ∈ written) →
        client.Key ∈ e.model.GetReceiverKeyByTicket s.db (field request.Data "message" "ticket")) := by
  have hne : deliveries s.clients
      (e.model.GetReceiverKeyByTicket s.db (field request.Data "message" "ticket"))
      (pushMsg client.Login.UserId (field request.Data "message" "ticket")
        (field request.Data "message" "content")) ≠ [] := by
    obtain ⟨key, hkey, hk⟩ := hsome
    obtain ⟨q, hq⟩ := Option.ne_none_iff_exists'.mp hk
    intro hnil
    have hmem : (q, pushMsg client.Login.UserId (field request.Data "message" "ticket")
        (field request.Data "message" "content")) ∈ deliveries s.clients
        (e.model.GetReceiverKeyByTicket s.db (field request.Data "message" "ticket"))
        (pushMsg client.Login.UserId (field request.Data "message" "ticket")
          (field request.Data "message" "content")) := by
      simp only [deliveries, List.mem_filterMap]
      exact ⟨key, hkey, by rw [show List.lookup key s.clients = some q from hq]; rfl⟩
    rw [hnil] at hmem
    exact absurd hmem (List.not_mem_nil _)
  have hout := sendMsg_valid e s request.Client client _ hticket hcontent hconv
  have hempty : (deliveries s.clients
      (e.model.GetReceiverKeyByTicket s.db (field request.Data "message" "ticket"))
      (pushMsg client.Login.UserId (field request.Data "message" "ticket")
        (field request.Data "message" "content"))).isEmpty = false := by
    simpa [List.isEmpty_iff] using hne
  rw [hempty] at hout
  simp only [Bool.false_eq_true, if_false, List.append_nil] at hout
  refine ⟨_, _, receivedHandler_sendMsg e s request client hclient hcmd hid, hout, hne, ?_, ?_⟩
  · intro x hx
    obtain ⟨h1, h2⟩ := mem_deliveries _ _ _ x hx
    exact ⟨h1, h2⟩
  · rintro ⟨r, hr⟩
    obtain ⟨_, key, hkey, hq⟩ := mem_deliveries _ _ _ _ hr
    have hk := key_of_client s hwf key request.Client client hq hclient
    rw [hk]
    exact hkey

/-- C9 at a concrete input: client 1 of the chat server sends on ticket "T"; its
own key "kB" is among the recipient keys "kB" and "kOld". -/
theorem C9_push_fields_no_ack_witness :
    tableWellFormed chatServer ∧
    ∃ s1 written, receivedHandler storeEnv chatServer
        { helloRequest with Client := 1 } = some s1 ∧
      s1.out = chatServer.out ++ written ∧ written ≠ [] ∧
      (∀ x ∈ written,
        x.2 = NewIMResponseData
          (SetData "message"
            [("sender", Value.str "uB"),
             ("ticket", Value.str (field helloRequest.Data "message" "ticket")),
             ("content", Value.str (field helloRequest.Data "message" "content"))])
          PUSH_MSG ∧
        ∃ key ∈ storeEnv.model.GetReceiverKeyByTicket chatServer.db
            (field helloRequest.Data "message" "ticket"),
          chatServer.client key = some x.1) ∧
      ((∃ r, ((1 : Nat), r) ∈ written) →
        "kB" ∈ storeEnv.model.GetReceiverKeyByTicket chatServer.db
          (field helloRequest.Data "message" "ticket")) :=
  ⟨by unfold tableWellFormed; decide,
   C9_push_fields_no_ack storeEnv chatServer { helloRequest with Client := 1 }
    { Key := "kB", Login := { Id := "2", Token := "tB", UserId := "uB" }, closed := false }
    (by unfold tableWellFormed; decide)
    rfl rfl (by decide) (by decide) (by decide) (by decide) (by decide)⟩

/-! ## Quit-handling -/

/-- The store after `quitHandler` has run for a client with key `key` and user
id `userId`, under the gateway laws, is a fixed point of the same store steps. -/
theorem quit_store_idem (g : Gateway D) (hlaws : QuitLaws g) (d : D) (key userId : String) :
    (if g.CountConnByKey
          (g.DeleteConnByKey
            (if g.CountConnByKey (g.DeleteConnByKey d key) key = 0
             then (g.UpdateUserStatus (g.DeleteConnByKey d key) userId "0").2
             else g.DeleteConnByKey d key) key) key = 0
     then (g.UpdateUserStatus
          (g.DeleteConnByKey
            (if g.CountConnByKey (g.DeleteConnByKey d key) key = 0
             then (g.UpdateUserStatus (g.DeleteConnByKey d key) userId "0").2
             else g.DeleteConnByKey d key) key) userId "0").2
     else g.DeleteConnByKey
            (if g.CountConnByKey (g.DeleteConnByKey d key) key = 0
             then (g.UpdateUserStatus (g.DeleteConnByKey d key) userId "0").2
             else g.DeleteConnByKey d key) key) =
      (if g.CountConnByKey (g.DeleteConnByKey d key) key = 0
       then (g.UpdateUserStatus (g.DeleteConnByKey d key) userId "0").2
       else g.DeleteConnByKey d key) := by
  by_cases h : g.CountConnByKey (g.DeleteConnByKey d key) key = 0
  · simp only [h, if_true, hlaws.delete_update, hlaws.delete_idem, hlaws.count_update,
      hlaws.update_idem]
  · simp only [h, if_false, hlaws.delete_idem]

/-- Deleting a key from the ClientTable makes its lookup fail. -/
theorem lookup_filter_self (clients : List (String × Nat)) (key : String) :
    (clients.filter (fun kv => kv.1 ≠ key)).lookup key = none := by
  induction clients with
  | nil => rfl
  | cons kv l ih =>
    obtain ⟨k0, q0⟩ := kv
    by_cases hk : k0 = key
    · simpa [List.filter, hk] using ih
    · have hb : (key == k0) = false := by simpa using fun h => hk h.symm
      simp only [List.filter, ne_eq, hk, not_false_eq_true, decide_True, List.lookup, hb]
      exact ih

/-- Deleting a key from the ClientTable leaves the lookup of every other key. -/
theorem lookup_filter_other (clients : List (String × Nat)) (key other : String)
    (h : other ≠ key) :
    (clients.filter (fun kv => kv.1 ≠ key)).lookup other = clients.lookup other := by
  induction clients with
  | nil => rfl
  | cons kv l ih =>
    obtain ⟨k0, q0⟩ := kv
    by_cases hk : k0 = key
    · have hb : (other == k0) = false := by rw [hk]; simpa using h
      simp only [List.filter, ne_eq, hk, not_true_eq_false, decide_False, List.lookup]
      rw [← hk, hb, hk]
      exact ih
    · simp only [List.filter, ne_eq, hk, not_false_eq_true, decide_True, List.lookup]
      cases other == k0 with
      | true => rfl
      | false => exact ih

/-- The result of `quitHandler` for an allocated client, field by field. -/
theorem quitHandler_some (e : Env D) (s : Server D) (p : Nat) (c : Client)
    (hc : s.heap[p]? = some c) :
    ∃ s1, quitHandler e s (some p) = some s1 ∧
      s1.heap = s.heap.set p { c with closed := true } ∧
      s1.clients = s.clients.filter (fun kv => kv.1 ≠ c.Key) ∧
      s1.db = (if e.model.CountConnByKey (e.model.DeleteConnByKey s.db c.Key) c.Key = 0
               then (e.model.UpdateUserStatus (e.model.DeleteConnByKey s.db c.Key)
                      c.Login.UserId "0").2
               else e.model.DeleteConnByKey s.db c.Key) ∧
      s1.out = s.out ∧ s1.quits = s.quits := by
  refine ⟨_, by simp only [quitHandler, hc]; rfl, ?_⟩
  by_cases h : e.model.CountConnByKey (e.model.DeleteConnByKey s.db c.Key) c.Key = 0
  · simp [Server.CountConnByKey, Server.DeleteConnByKey, Server.UpdateUserStatus, Server.called,
      Server.Close, Server.deleteClient, h, hc]
  · simp [Server.CountConnByKey, Server.DeleteConnByKey, Server.UpdateUserStatus, Server.called,
      Server.Close, Server.deleteClient, h, hc]

/-- C10: quitHandler is idempotent. For a gateway satisfying the quit laws and
an allocated session, quitHandler returns both times (it does not fault), the
second application leaves the ClientTable, the store, the clients and the
traces of responses and quit signals as the first left them, the session's key
is absent from the ClientTable after the first application, every other key is
registered after each application as before, and a nil session is a no-op. -/
theorem C10_quit_idempotent (e : Env D) (s : Server D) (p : Nat) (c : Client)
    (hlaws : QuitLaws e.model) (hc : s.heap[p]? = some c) :
    ∃ s1 s2, quitHandler e s (some p) = some s1 ∧ quitHandler e s1 (some p) = some s2 ∧
      s2.clients = s1.clients ∧ s2.db = s1.db ∧ s2.heap = s1.heap ∧ s2.out = s1.out ∧
      s2.quits = s1.quits ∧
      s1.client c.Key = none ∧
      (∀ key, key ≠ c.Key → s1.client key = s.client key ∧ s2.client key = s.client key) ∧
      quitHandler e s none = some s := by
  obtain ⟨s1, h1, hheap1, hcl1, hdb1, hout1, hq1⟩ := quitHandler_some e s p c hc
  have hp : p < s.heap.length := by
    rcases Nat.lt_or_ge p s.heap.length with h | h
    · exact h
    · rw [List.getElem?_eq_none h] at hc
      exact absurd hc (by simp)
  have hc1 : s1.heap[p]? = some { c with closed := true } := by
    rw [hheap1]
    simp [hp]
  obtain ⟨s2, h2, hheap2, hcl2, hdb2, hout2, hq2⟩ :=
    quitHandler_some e s1 p { c with closed := true } hc1
  have hcl : s2.clients = s1.clients := by
    rw [hcl2, hcl1]
    simp
  refine ⟨s1, s2, h1, h2, hcl, ?_, ?_, by rw [hout2], by rw [hq2], ?_, ?_, rfl⟩
  · rw [hdb2, hdb1]
    exact quit_store_idem e.model hlaws s.db c.Key c.Login.UserId
  · rw [hheap2, hheap1]
    simp
  · unfold Server.client
    rw [hcl1]
    exact lookup_filter_self _ _
  · intro key hkey
    unfold Server.client
    rw [hcl, hcl1]
    exact ⟨lookup_filter_other _ _ _ hkey, lookup_filter_other _ _ _ hkey⟩

/-- The in-memory gateway satisfies the quit laws. -/
theorem storeGateway_quitLaws (ci : Bool) : QuitLaws (storeGateway ci) where
  delete_idem d key := by
    simp [storeGateway]
  delete_update d key userId status := by
    simp only [storeGateway]
    split <;> simp [Store.setStatus]
  count_update d key userId status := by
    simp only [storeGateway]
    split <;> simp [Store.setStatus]
  update_idem d userId status := by
    simp only [storeGateway]
    by_cases h : (d.users.any fun u => decide (u.Id = userId)) = true
    · have h2 : ((d.setStatus userId status).users.any fun u => decide (u.Id = userId)) = true := by
        simp only [Store.setStatus, List.any_map, List.any_eq_true, Function.comp] at h ⊢
        obtain ⟨u, hu, hid⟩ := h
        refine ⟨u, hu, ?_⟩
        simp only [decide_eq_true_eq] at hid
        simp [hid]
      simp only [h, if_true, h2]
      simp only [Store.setStatus, List.map_map]
      congr 1
      apply List.map_congr_left
      intro u _
      by_cases hu : u.Id = userId <;> simp [hu]
    · simp [h]

/-- C10 at a concrete input: quit-handling of client 1 of the chat server, over
the in-memory gateway. -/
theorem C10_quit_idempotent_witness :
    ∃ s1 s2, quitHandler storeEnv chatServer (some 1) = some s1 ∧
      quitHandler storeEnv s1 (some 1) = some s2 ∧
      s2.clients = s1.clients ∧ s2.db = s1.db ∧ s2.heap = s1.heap ∧ s2.out = s1.out ∧
      s2.quits = s1.quits ∧
      s1.client "kB" = none ∧
      (∀ key, key ≠ "kB" → s1.client key = chatServer.client key ∧
        s2.client key = chatServer.client key) ∧
      quitHandler storeEnv chatServer none = some chatServer :=
  C10_quit_idempotent storeEnv chatServer 1
    { Key := "kB", Login := { Id := "2", Token := "tB", UserId := "uB" }, closed := false }
    (storeGateway_quitLaws false) rfl

/-- In the in-memory gateway no connection is counted under a key whose records
have just been deleted, whatever other connections its user holds. -/
theorem storeGateway_count_after_delete (ci : Bool) (d : Store) (key : String) :
    (storeGateway ci).CountConnByKey ((storeGateway ci).DeleteConnByKey d key) key = 0 := by
  simp only [storeGateway]
  have h : (List.filter (fun c : Conn =>
      (List.filter (fun c : Conn => decide (c.Key ≠ key)) d.conns).any
        (fun k => decide (k.Key = key ∧ k.UserId = c.UserId)))
      (List.filter (fun c : Conn => decide (c.Key ≠ key)) d.conns)) = [] := by
    rw [List.filter_eq_nil_iff]
    intro c _
    simp only [List.any_eq_true, List.mem_filter, decide_eq_true_eq, not_exists, not_and]
    intro k hk hkey _
    exact absurd hkey (by simpa using hk.2)
  rw [h]
  rfl

/-- C11, the code at a failing input: client 2 of the stale server has key
"kGone", which is not in the ClientTable and has no connection record; its user
"uB" is online through the connection "kB". quitHandler leaves the ClientTable
and the connection records unchanged, but it calls UpdateUserStatus("uB", "0")
and the persisted status of "uB" goes from "1" to "0". -/
theorem C11_quit_of_removed_key_sets_offline :
    staleServer.client "kGone" = none ∧
    staleServer.db.conns.all (fun c => c.Key ≠ "kGone") = true ∧
    staleServer.db.users = [{ Id := "uA", Status := "1" }, { Id := "uB", Status := "1" }] ∧
    ∃ s1, quitHandler storeEnv staleServer (some 2) = some s1 ∧
      s1.clients = staleServer.clients ∧ s1.db.conns = staleServer.db.conns ∧
      s1.calls = [Call.DeleteConnByKey "kGone", Call.CountConnByKey "kGone",
                  Call.UpdateUserStatus "uB" "0"] ∧
      s1.db.users = [{ Id := "uA", Status := "1" }, { Id := "uB", Status := "0" }] := by
  refine ⟨by decide, by decide, by decide, _, rfl, ?_, ?_, ?_, ?_⟩ <;> decide

/-- C12, the code at a failing input: sessions "k1" and "k2" are both registered
and both hold a connection record of user "uB", who is online. Quit-handling of
"k1" removes only the key and record of "k1" and leaves "k2" registered with its
record, but it calls UpdateUserStatus("uB", "0") and the persisted status of
"uB" is "0" afterwards. -/
theorem C12_quit_one_of_two_sets_offline :
    twoConnServer.db.users = [{ Id := "uA", Status := "0" }, { Id := "uB", Status := "1" }] ∧
    ∃ s1, quitHandler storeEnv twoConnServer (some 0) = some s1 ∧
      s1.clients = [("k2", 1)] ∧
      s1.db.conns = [{ Key := "k2", UserId := "uB", Token := "tB" }] ∧
      s1.calls = [Call.DeleteConnByKey "k1", Call.CountConnByKey "k1",
                  Call.UpdateUserStatus "uB" "0"] ∧
      s1.db.users = [{ Id := "uA", Status := "0" }, { Id := "uB", Status := "0" }] := by
  refine ⟨by decide, _, rfl, ?_, ?_, ?_, ?_⟩ <;> decide

/-- C13: an authenticated session whose user has no connection left once the
session's own record is deleted sends LOGOUT_REQUEST. The handler writes no
response, makes no model call and raises the session's termination signal;
quitHandler for that session then deletes the session's connection record,
applies UpdateUserStatus(userId, "0") to the store, and removes the session's
key from the ClientTable, writing no response either. -/
theorem C13_logout_then_quit (e : Env D) (s : Server D) (request : IMRequest)
    (client : Client) (hclient : s.heap[request.Client]? = some client)
    (hcmd : request.Command = LOGOUT_REQUEST) (hid : client.Login.Id ≠ "")
    (hcount : e.model.CountConnByKey (e.model.DeleteConnByKey s.db client.Key) client.Key = 0) :
    ∃ s1 s2, receivedHandler e s request = some s1 ∧
      s1.out = s.out ∧ s1.calls = s.calls ∧ s1.quits = s.quits ++ [request.Client] ∧
      s1.db = s.db ∧ s1.clients = s.clients ∧ s1.heap = s.heap ∧
      quitHandler e s1 (some request.Client) = some s2 ∧
      s2.calls = s.calls ++ [Call.DeleteConnByKey client.Key, Call.CountConnByKey client.Key,
                             Call.UpdateUserStatus client.Login.UserId "0"] ∧
      s2.db = (e.model.UpdateUserStatus (e.model.DeleteConnByKey s.db client.Key)
                client.Login.UserId "0").2 ∧
      s2.client client.Key = none ∧ s2.out = s.out := by
  have d0 : LOGOUT_REQUEST ≠ GET_CONN := by decide
  have d1 : LOGOUT_REQUEST ≠ GET_BUDDY_LIST := by decide
  have d2 : LOGOUT_REQUEST ≠ CREATE_SESSION := by decide
  have d3 : LOGOUT_REQUEST ≠ SEND_MSG := by decide
  have d4 : LOGOUT_REQUEST ≠ SEND_STATUS_CHANGE := by decide
  have h1 : receivedHandler e s request = some (s.Quiting request.Client) := by
    simp only [receivedHandler, hclient, hcmd, d0, d1, d2, d3, d4, hid, if_false, if_true]
  have hclient1 : (s.Quiting request.Client).heap[request.Client]? = some client := hclient
  have hcount1 : (Server.CountConnByKey e
      (Server.DeleteConnByKey e (s.Quiting request.Client) client.Key) client.Key).1 = 0 := hcount
  refine ⟨_, (((Server.UpdateUserStatus e
      (Server.CountConnByKey e
        (Server.DeleteConnByKey e (s.Quiting request.Client) client.Key) client.Key).2
      client.Login.UserId "0").2.Close request.Client).deleteClient client.Key),
    h1, rfl, rfl, rfl, rfl, rfl, rfl, ?_, ?_, rfl, ?_, rfl⟩
  · simp only [quitHandler, hclient1, hcount1, if_true]
  · simp [Server.CountConnByKey, Server.DeleteConnByKey, Server.called,
      Server.UpdateUserStatus, Server.Close, Server.deleteClient, Server.Quiting]
  · exact lookup_filter_self _ _

/-- C13 at a concrete input: client 0 of the chat server, logged in as "uA" with
the only connection record of "uA", sends LOGOUT_REQUEST. -/
theorem C13_logout_then_quit_witness :
    chatServer.heap[(0 : Nat)]? =
        some { Key := "kA", Login := { Id := "1", Token := "tA", UserId := "uA" },
               closed := false } ∧
      storeEnv.model.CountConnByKey (storeEnv.model.DeleteConnByKey chatServer.db "kA") "kA" = 0 ∧
      ∃ s1 s2, receivedHandler storeEnv chatServer
          { Client := 0, Command := LOGOUT_REQUEST, Data := [] } = some s1 ∧
        s1.out = chatServer.out ∧ s1.calls = chatServer.calls ∧
        s1.quits = chatServer.quits ++ [0] ∧
        s1.db = chatServer.db ∧ s1.clients = chatServer.clients ∧ s1.heap = chatServer.heap ∧
        quitHandler storeEnv s1 (some 0) = some s2 ∧
        s2.calls = chatServer.calls ++
          [Call.DeleteConnByKey "kA", Call.CountConnByKey "kA", Call.UpdateUserStatus "uA" "0"] ∧
        s2.db = (storeEnv.model.UpdateUserStatus (storeEnv.model.DeleteConnByKey chatServer.db "kA")
                  "uA" "0").2 ∧
        s2.client "kA" = none ∧ s2.out = chatServer.out :=
  ⟨rfl, by decide,
   C13_logout_then_quit storeEnv chatServer { Client := 0, Command := LOGOUT_REQUEST, Data := [] }
     { Key := "kA", Login := { Id := "1", Token := "tA", UserId := "uA" }, closed := false }
     rfl rfl (by decide) (by decide)⟩

/-! ## `SEND_STATUS_CHANGE` and the response commands -/

/-- C14, the code at a failing input: client 0 of the chat server is logged in as
"uA" and sends SEND_STATUS_CHANGE with token "tA" and status "1". The token
resolves to the existing user "uA" whose persisted status is "1", and "uA" has
the connected buddy key "kB"; yet the handler makes no status update and no
push: it answers the requester with error 501 "Token不合法!". -/
theorem C14_existing_user_rejected :
    storeEnv.model.GetUserByToken chatServer.db "tA" = { Id := "uA", Status := "1" } ∧
    (storeEnv.model.UpdateUserStatus chatServer.db "uA" "1").1 = true ∧
    storeEnv.model.GetBuddiesKeyById chatServer.db "uA" = ["kB", "kOld"] ∧
    chatServer.client "kB" = some 1 ∧
    ∃ s1, receivedHandler storeEnv chatServer
        { Client := 0, Command := SEND_STATUS_CHANGE,
          Data := [("user", [("token", "tA"), ("status", "1")])] } = some s1 ∧
      s1.out = [(0, NewIMResponseSimple 501 "Token不合法!" SEND_STATUS_CHANGE)] ∧
      s1.calls = [Call.GetUserByToken "tA"] ∧ s1.db = chatServer.db := by
  refine ⟨by decide, by decide, by decide, by decide, _, rfl, ?_, ?_, ?_⟩ <;> decide

/-- C15, the code at failing inputs: on the chat server, the 301 reply to a
GET_BUDDY_LIST without token, the 304 reply to a CREATE_SESSION whose
conversation cannot be created, and the 304 reply to a SEND_MSG without
connected recipient all carry the command GET_CONN_RETURN. -/
theorem C15_wrong_response_command :
    (∃ s1, receivedHandler storeEnv chatServer
        { Client := 0, Command := GET_BUDDY_LIST, Data := [] } = some s1 ∧
      s1.out = [(0, NewIMResponseSimple 301 "用户令牌不能为空!" GET_CONN_RETURN)]) ∧
    (∃ s1, receivedHandler storeEnv chatServer
        { Client := 0, Command := CREATE_SESSION,
          Data := [("session", [("sender", "uA"), ("receiver", "nobody"), ("token", "tA")])] } =
        some s1 ∧
      s1.out = [(0, NewIMResponseSimple 304 "创建会话失败" GET_CONN_RETURN)]) ∧
    (∃ s1, receivedHandler storeEnv
        { chatServer with
          db := { demoStore with
                  conversations := [{ Id := "T2", Sender := "uA", Receiver := "uC" }] } }
        { Client := 0, Command := SEND_MSG,
          Data := [("message", [("ticket", "T2"), ("content", "hi")])] } = some s1 ∧
      s1.out = [(0, NewIMResponseSimple 304 "对方不在线!" GET_CONN_RETURN)]) ∧
    GET_CONN_RETURN ≠ GET_BUDDY_LIST_RETURN ∧ GET_CONN_RETURN ≠ CREATE_SESSION_RETURN ∧
    GET_CONN_RETURN ≠ SEND_MSG_RETURN := by
  refine ⟨⟨_, rfl, ?_⟩, ⟨_, rfl, ?_⟩, ⟨_, rfl, ?_⟩, ?_, ?_, ?_⟩ <;> decide

/-- C20, the code at a failing input: on the ghost server the token "zz"
resolves to the user row with empty id and status "1", the status update
succeeds and GetBuddiesKeyById returns the key "kGone", which is not in the
ClientTable. The notification loop reads `this.clients["kGone"]`, which is nil,
and calls PutOut on it: the handler panics. The loop body alone panics on any
absent key, where the loop body of SEND_MSG skips it. -/
theorem C20_status_change_panics_on_absent_key :
    storeEnv.model.GetBuddiesKeyById ghostServer.db "" = ["kGone"] ∧
    ghostServer.client "kGone" = none ∧
    receivedHandler storeEnv ghostServer
      { Client := 0, Command := SEND_STATUS_CHANGE,
        Data := [("user", [("token", "zz"), ("status", "1")])] } = none ∧
    statusChangeStep "" "1" ghostServer "kGone" = none ∧
    sendMsgStep "uA" "T" "hi" (ghostServer, false) "kGone" = (ghostServer, false) := by
  refine ⟨?_, ?_, ?_, ?_, ?_⟩ <;> decide

/-! ## Join-handling -/

/-- Deleting a key that is not in the ClientTable leaves the table as it is. -/
theorem filter_absent_key (clients : List (String × Nat)) (key : String)
    (h : clients.lookup key = none) : clients.filter (fun kv => kv.1 ≠ key) = clients := by
  induction clients with
  | nil => rfl
  | cons kv l ih =>
    obtain ⟨k0, q0⟩ := kv
    by_cases hk : key = k0
    · subst hk
      simp [List.lookup] at h
    · have hb : (key == k0) = false := by simpa using hk
      simp only [List.lookup, hb] at h
      have hk2 : ¬ k0 = key := fun h2 => hk h2.symm
      simp only [List.filter, ne_eq, hk2, not_false_eq_true, decide_True, ih h]

/-- C16: when the generated key is not in the ClientTable, joinHandler allocates
a new session for the connection, adds exactly the entry key -> new session in
front of the unchanged existing entries, and writes exactly one response, to
the new session, with command GET_KEY_RETURN and the key as payload; given that
earlier responses went to allocated sessions, it is the only, hence first,
response addressed to the new session. No model call is made. -/
theorem C16_join_registers_and_replies (s : Server D) (key : String)
    (hfresh : s.client key = none) (hout : ∀ x ∈ s.out, x.1 < s.heap.length) :
    (joinHandler s key).heap = s.heap ++ [CreateClient key] ∧
    (joinHandler s key).clients = (key, s.heap.length) :: s.clients ∧
    (joinHandler s key).client key = some s.heap.length ∧
    (∀ other, other ≠ key → (joinHandler s key).client other = s.client other) ∧
    (joinHandler s key).out = s.out ++
      [(s.heap.length,
        NewIMResponseData (SetData "conn" [("key", Value.str key)]) GET_KEY_RETURN)] ∧
    (joinHandler s key).out.filter (fun x => x.1 = s.heap.length) =
      [(s.heap.length,
        NewIMResponseData (SetData "conn" [("key", Value.str key)]) GET_KEY_RETURN)] ∧
    (joinHandler s key).calls = s.calls ∧ (joinHandler s key).db = s.db := by
  have hcl : (joinHandler s key).clients = (key, s.heap.length) :: s.clients := by
    simp only [joinHandler, Server.PutOut, Server.insertClient]
    rw [filter_absent_key s.clients key hfresh]
  refine ⟨rfl, hcl, ?_, ?_, rfl, ?_, rfl, rfl⟩
  · simp [Server.client, hcl, List.lookup]
  · intro other hother
    have hb : (other == key) = false := by simpa using hother
    unfold Server.client
    rw [hcl]
    simp only [List.lookup, hb]
  · have hold : s.out.filter (fun x => decide (x.1 = s.heap.length)) = [] := by
      rw [List.filter_eq_nil_iff]
      intro x hx
      have := hout x hx
      simp only [decide_eq_true_eq]
      omega
    simp only [joinHandler, Server.PutOut, Server.insertClient, List.filter_append, hold,
      List.nil_append]
    simp

/-- C16 at a concrete input: a connection joins the chat server and is given
the key "kC". -/
theorem C16_join_registers_and_replies_witness :
    chatServer.client "kC" = none ∧
    (joinHandler chatServer "kC").heap = chatServer.heap ++ [CreateClient "kC"] ∧
    (joinHandler chatServer "kC").clients = ("kC", chatServer.heap.length) :: chatServer.clients ∧
    (joinHandler chatServer "kC").client "kC" = some chatServer.heap.length ∧
    (∀ other, other ≠ "kC" → (joinHandler chatServer "kC").client other = chatServer.client other) ∧
    (joinHandler chatServer "kC").out = chatServer.out ++
      [(chatServer.heap.length,
        NewIMResponseData (SetData "conn" [("key", Value.str "kC")]) GET_KEY_RETURN)] ∧
    (joinHandler chatServer "kC").out.filter (fun x => x.1 = chatServer.heap.length) =
      [(chatServer.heap.length,
        NewIMResponseData (SetData "conn" [("key", Value.str "kC")]) GET_KEY_RETURN)] ∧
    (joinHandler chatServer "kC").calls = chatServer.calls ∧
    (joinHandler chatServer "kC").db = chatServer.db :=
  ⟨by decide, C16_join_registers_and_replies chatServer "kC" (by decide) (by decide)⟩

/-! ## `CREATE_SESSION` validation and successful `GET_CONN` -/

/-- An authenticated CREATE_SESSION request is handled by the arm CREATE_SESSION. -/
theorem receivedHandler_createSession (e : Env D) (s : Server D) (request : IMRequest)
    (client : Client) (hclient : s.heap[request.Client]? = some client)
    (hcmd : request.Command = CREATE_SESSION) (hid : client.Login.Id ≠ "") :
    receivedHandler e s request = some (createSession e s request.Client request.Data) := by
  have d0 : CREATE_SESSION ≠ GET_CONN := by decide
  have d1 : CREATE_SESSION ≠ GET_BUDDY_LIST := by decide
  simp only [receivedHandler, hclient, hcmd, d0, d1, hid, if_false, if_true]

/-- C17: for an authenticated session and a CREATE_SESSION request the fields
are checked in the order sender, receiver, token. The first empty one decides
the single reply: 301 if sender is empty, else 302 if receiver is empty, else
303 if token is empty, in each case without any model call (no conversation
lookup or creation) and with the store unchanged. If none is empty the single
reply is the 304 error or the data response, not a 301/302/303. -/
theorem C17_create_session_validation_order (e : Env D) (s : Server D) (request : IMRequest)
    (client : Client) (hclient : s.heap[request.Client]? = some client)
    (hcmd : request.Command = CREATE_SESSION) (hid : client.Login.Id ≠ "") :
    ∃ s1, receivedHandler e s request = some s1 ∧
      (field request.Data "session" "sender" = "" →
        s1.out = s.out ++
          [(request.Client, NewIMResponseSimple 301 "发送者不能为空!" CREATE_SESSION_RETURN)] ∧
        s1.calls = s.calls ∧ s1.db = s.db) ∧
      (field request.Data "session" "sender" ≠ "" →
        field request.Data "session" "receiver" = "" →
        s1.out = s.out ++
          [(request.Client, NewIMResponseSimple 302 "接收者不能为空!" CREATE_SESSION_RETURN)] ∧
        s1.calls = s.calls ∧ s1.db = s.db) ∧
      (field request.Data "session" "sender" ≠ "" →
        field request.Data "session" "receiver" ≠ "" →
        field request.Data "session" "token" = "" →
        s1.out = s.out ++
          [(request.Client, NewIMResponseSimple 303 "用户令牌不能为空!" CREATE_SESSION_RETURN)] ∧
        s1.calls = s.calls ∧ s1.db = s.db) ∧
      (field request.Data "session" "sender" ≠ "" →
        field request.Data "session" "receiver" ≠ "" →
        field request.Data "session" "token" ≠ "" →
        ∃ r, s1.out = s.out ++ [(request.Client, r)] ∧
          (r.code? = some 304 ∨ r.code? = none)) := by
  refine ⟨_, receivedHandler_createSession e s request client hclient hcmd hid, ?_, ?_, ?_, ?_⟩
  · intro h1
    simp only [createSession, h1, if_true]
    exact ⟨rfl, rfl, rfl⟩
  · intro h1 h2
    simp only [createSession, h1, h2, if_true, if_false]
    exact ⟨rfl, rfl, rfl⟩
  · intro h1 h2 h3
    simp only [createSession, h1, h2, h3, if_true, if_false]
    exact ⟨rfl, rfl, rfl⟩
  · intro h1 h2 h3
    simp only [createSession, h1, h2, h3, if_false]
    by_cases hg : (Server.GetConversation e s (field request.Data "session" "sender")
        (field request.Data "session" "receiver")).1.Id = ""
    · simp only [hg, if_true]
      by_cases ha : (Server.AddConversation e
          (Server.GetConversation e s (field request.Data "session" "sender")
            (field request.Data "session" "receiver")).2
          (field request.Data "session" "sender") (field request.Data "session" "receiver")).1 = ""
      · simp only [ha, if_true]
        exact ⟨_, rfl, Or.inl rfl⟩
      · simp only [ha, if_false]
        exact ⟨_, rfl, Or.inr rfl⟩
    · simp only [hg, if_false]
      exact ⟨_, rfl, Or.inr rfl⟩

/-- C17 at a concrete input: client 0 of the chat server sends CREATE_SESSION
with a sender but no receiver and no token. -/
theorem C17_create_session_validation_order_witness :
    field [("session", [("sender", "uA")])] "session" "sender" ≠ "" ∧
    field [("session", [("sender", "uA")])] "session" "receiver" = "" ∧
    ∃ s1, receivedHandler storeEnv chatServer
        { Client := 0, Command := CREATE_SESSION, Data := [("session", [("sender", "uA")])] } =
        some s1 ∧
      s1.out = chatServer.out ++
        [(0, NewIMResponseSimple 302 "接收者不能为空!" CREATE_SESSION_RETURN)] ∧
      s1.calls = chatServer.calls ∧ s1.db = chatServer.db := by
  obtain ⟨s1, h, _, h302, _, _⟩ := C17_create_session_validation_order storeEnv chatServer
    { Client := 0, Command := CREATE_SESSION, Data := [("session", [("sender", "uA")])] }
    { Key := "kA", Login := { Id := "1", Token := "tA", UserId := "uA" }, closed := false }
    rfl rfl (by decide)
  exact ⟨by decide, by decide, s1, h, h302 (by decide) (by decide)⟩

/-- A string is equal to itself under case folding. -/
theorem equalFold_refl (orbit : Char → Char → Bool) (t : String) : EqualFold orbit t t = true := by
  unfold EqualFold
  induction t.toList with
  | nil => rfl
  | cons a l ih => simp [equalFoldRunes, foldPair, ih]

/-- C19: for a GET_CONN request with a non-empty token that matches (under
strings.EqualFold, in particular when equal) the token of the login record
returned for it, whose id is non-empty, and for which the presence update to
"1" succeeds, the handler sets the session's Login to that record, makes
exactly one connection-record write with (session key, user id, token), namely
UpdateConnByToken if GetConnByToken returns a record with non-empty user id and
AddConn otherwise, and writes exactly one response, GET_CONN_RETURN with the
result of that write as status; the session's Login.Id is then non-empty. -/
theorem C19_get_conn_success (e : Env D) (s : Server D) (request : IMRequest)
    (client : Client) (login : Login) (hclient : s.heap[request.Client]? = some client)
    (hcmd : request.Command = GET_CONN) (htoken : field request.Data "user" "token" ≠ "")
    (hlogin : e.model.GetLoginByToken s.db (field request.Data "user" "token") = login)
    (hmatch : EqualFold e.orbit login.Token (field request.Data "user" "token") = true)
    (hlid : login.Id ≠ "")
    (hupd : (e.model.UpdateUserStatus s.db login.UserId "1").1 = true) :
    ∃ s1 write num, receivedHandler e s request = some s1 ∧
      s1.heap = s.heap.set request.Client { client with Login := login } ∧
      (∃ c1, s1.heap[request.Client]? = some c1 ∧ c1.Login = login ∧ c1.Login.Id ≠ "") ∧
      s1.calls = s.calls ++
        [Call.GetLoginByToken (field request.Data "user" "token"),
         Call.UpdateUserStatus login.UserId "1",
         Call.GetConnByToken (field request.Data "user" "token"), write] ∧
      s1.out = s.out ++
        [(request.Client,
          NewIMResponseData (SetData "conn" [("status", Value.int num)]) GET_CONN_RETURN)] ∧
      (((e.model.GetConnByToken (e.model.UpdateUserStatus s.db login.UserId "1").2
            (field request.Data "user" "token")).UserId ≠ "" ∧
          write = Call.UpdateConnByToken client.Key login.UserId
            (field request.Data "user" "token") ∧
          (num, s1.db) = e.model.UpdateConnByToken (e.model.UpdateUserStatus s.db login.UserId "1").2
            client.Key login.UserId (field request.Data "user" "token")) ∨
       ((e.model.GetConnByToken (e.model.UpdateUserStatus s.db login.UserId "1").2
            (field request.Data "user" "token")).UserId = "" ∧
          write = Call.AddConn client.Key login.UserId (field request.Data "user" "token") ∧
          (num, s1.db) = e.model.AddConn (e.model.UpdateUserStatus s.db login.UserId "1").2
            client.Key login.UserId (field request.Data "user" "token"))) ∧
      ((s1.calls.drop s.calls.length).filter Call.isConnWrite).length = 1 := by
  have hp : request.Client < s.heap.length := by
    rcases Nat.lt_or_ge request.Client s.heap.length with h | h
    · exact h
    · rw [List.getElem?_eq_none h] at hclient
      exact absurd hclient (by simp)
  have hrun : receivedHandler e s request =
      some (getConn e s request.Client client request.Data) := by
    simp only [receivedHandler, hclient, hcmd, if_true]
  have hc1 : ∃ c1, (s.heap.set request.Client { client with Login := login })[request.Client]? =
      some c1 ∧ c1.Login = login ∧ c1.Login.Id ≠ "" :=
    ⟨{ client with Login := login }, by simp [hp], rfl, hlid⟩
  by_cases hconn : (e.model.GetConnByToken (e.model.UpdateUserStatus s.db login.UserId "1").2
      (field request.Data "user" "token")).UserId = ""
  · have hg : getConn e s request.Client client request.Data =
        { heap := s.heap.set request.Client { client with Login := login },
          clients := s.clients,
          db := (e.model.AddConn (e.model.UpdateUserStatus s.db login.UserId "1").2
            client.Key login.UserId (field request.Data "user" "token")).2,
          out := s.out ++ [(request.Client,
            NewIMResponseData (SetData "conn" [("status", Value.int
              (e.model.AddConn (e.model.UpdateUserStatus s.db login.UserId "1").2
                client.Key login.UserId (field request.Data "user" "token")).1)])
              GET_CONN_RETURN)],
          calls := s.calls ++
            [Call.GetLoginByToken (field request.Data "user" "token"),
             Call.UpdateUserStatus login.UserId "1",
             Call.GetConnByToken (field request.Data "user" "token"),
             Call.AddConn client.Key login.UserId (field request.Data "user" "token")],
          quits := s.quits } := by
      simp only [getConn, htoken, if_false, Server.GetLoginByToken, hlogin, hmatch, Bool.not_true,
        Bool.false_eq_true, hlid, ne_eq, not_false_eq_true, if_true, Server.UpdateUserStatus,
        Server.setLogin, Server.called, hupd, Server.GetConnByToken, hconn, not_true_eq_false,
        Server.AddConn, Server.PutOut, hclient, List.append_assoc, List.singleton_append,
        List.cons_append, List.nil_append]
    refine ⟨_, Call.AddConn client.Key login.UserId (field request.Data "user" "token"),
      (e.model.AddConn (e.model.UpdateUserStatus s.db login.UserId "1").2
        client.Key login.UserId (field request.Data "user" "token")).1, hrun, ?_⟩
    rw [hg]
    exact ⟨rfl, hc1, rfl, rfl, Or.inr ⟨hconn, rfl, rfl⟩, by simp [Call.isConnWrite]⟩
  · have hg : getConn e s request.Client client request.Data =
        { heap := s.heap.set request.Client { client with Login := login },
          clients := s.clients,
          db := (e.model.UpdateConnByToken (e.model.UpdateUserStatus s.db login.UserId "1").2
            client.Key login.UserId (field request.Data "user" "token")).2,
          out := s.out ++ [(request.Client,
            NewIMResponseData (SetData "conn" [("status", Value.int
              (e.model.UpdateConnByToken (e.model.UpdateUserStatus s.db login.UserId "1").2
                client.Key login.UserId (field request.Data "user" "token")).1)])
              GET_CONN_RETURN)],
          calls := s.calls ++
            [Call.GetLoginByToken (field request.Data "user" "token"),
             Call.UpdateUserStatus login.UserId "1",
             Call.GetConnByToken (field request.Data "user" "token"),
             Call.UpdateConnByToken client.Key login.UserId (field request.Data "user" "token")],
          quits := s.quits } := by
      simp only [getConn, htoken, if_false, Server.GetLoginByToken, hlogin, hmatch, Bool.not_true,
        Bool.false_eq_true, hlid, ne_eq, not_false_eq_true, if_true, Server.UpdateUserStatus,
        Server.setLogin, Server.called, hupd, Server.GetConnByToken, hconn,
        Server.UpdateConnByToken, Server.PutOut, hclient, List.append_assoc,
        List.singleton_append, List.cons_append, List.nil_append]
    refine ⟨_, Call.UpdateConnByToken client.Key login.UserId (field request.Data "user" "token"),
      (e.model.UpdateConnByToken (e.model.UpdateUserStatus s.db login.UserId "1").2
        client.Key login.UserId (field request.Data "user" "token")).1, hrun, ?_⟩
    rw [hg]
    exact ⟨rfl, hc1, rfl, rfl, Or.inl ⟨hconn, rfl, rfl⟩, by simp [Call.isConnWrite]⟩

/-- C19 at a concrete input: client 0 of the demo server sends GET_CONN with
token "tA", the token of the login record of user "uA", who has no connection
record yet: the write is an insert. -/
theorem C19_get_conn_success_witness :
    demoServer.heap[(0 : Nat)]? =
        some { Key := "kA", Login := Login.zero, closed := false } ∧
    storeEnv.model.GetLoginByToken demoServer.db "tA" =
        { Id := "1", Token := "tA", UserId := "uA" } ∧
    (storeEnv.model.UpdateUserStatus demoServer.db "uA" "1").1 = true ∧
    ∃ s1 write num, receivedHandler storeEnv demoServer
        { Client := 0, Command := GET_CONN, Data := [("user", [("token", "tA")])] } = some s1 ∧
      s1.heap = demoServer.heap.set 0
        { Key := "kA", Login := { Id := "1", Token := "tA", UserId := "uA" }, closed := false } ∧
      (∃ c1, s1.heap[(0 : Nat)]? = some c1 ∧
        c1.Login = { Id := "1", Token := "tA", UserId := "uA" } ∧ c1.Login.Id ≠ "") ∧
      s1.calls = demoServer.calls ++
        [Call.GetLoginByToken "tA", Call.UpdateUserStatus "uA" "1",
         Call.GetConnByToken "tA", write] ∧
      s1.out = demoServer.out ++
        [(0, NewIMResponseData (SetData "conn" [("status", Value.int num)]) GET_CONN_RETURN)] ∧
      (((storeEnv.model.GetConnByToken (storeEnv.model.UpdateUserStatus demoServer.db "uA" "1").2
            "tA").UserId ≠ "" ∧
          write = Call.UpdateConnByToken "kA" "uA" "tA" ∧
          (num, s1.db) = storeEnv.model.UpdateConnByToken
            (storeEnv.model.UpdateUserStatus demoServer.db "uA" "1").2 "kA" "uA" "tA") ∨
       ((storeEnv.model.GetConnByToken (storeEnv.model.UpdateUserStatus demoServer.db "uA" "1").2
            "tA").UserId = "" ∧
          write = Call.AddConn "kA" "uA" "tA" ∧
          (num, s1.db) = storeEnv.model.AddConn
            (storeEnv.model.UpdateUserStatus demoServer.db "uA" "1").2 "kA" "uA" "tA")) ∧
      ((s1.calls.drop demoServer.calls.length).filter Call.isConnWrite).length = 1 :=
  ⟨rfl, by decide, by decide,
   C19_get_conn_success storeEnv demoServer
     { Client := 0, Command := GET_CONN, Data := [("user", [("token", "tA")])] }
     { Key := "kA", Login := Login.zero, closed := false }
     { Id := "1", Token := "tA", UserId := "uA" }
     rfl rfl (by decide) (by decide) (by decide) (by decide) (by decide)⟩

end Imgo
